import Mathlib

/-!
# Verification of the tax-pensions retirement simulation engine

Shallow embedding, over `ℚ`, of the core simulation engine of the
tax-pensions backend: `engine/taxes.py` (`TaxCalculator`),
`engine/real_estate.py` (`Mortgage`), `engine/withdrawals.py`
(`StandardStrategy`, `TaxableFirstStrategy`) and `engine/core.py`
(`get_rmd_factor`, `run_deterministic`).  Python floats are modelled as
exact rationals; the per-year Monte-Carlo market perturbation is modelled
as an explicit stream of rationals (the deterministic `volatility = 0`
path is the constant-zero stream).
-/

/- Rational arithmetic must evaluate inside `decide` proofs below; the
Batteries definitions are `@[irreducible]` by default. -/
attribute [local semireducible] Rat.mul Rat.add Rat.sub Rat.inv Rat.ofScientific

/-- Python's `int(...)` applied to a rational: truncation toward zero.
(`Rat.floor` is used rather than `Int.floor` so that terms evaluate inside
the kernel; they agree by `Rat.floor_def'`.) -/
def pyTrunc (q : ℚ) : ℤ := if 0 ≤ q then q.floor else -((-q).floor)

/-- Python 3's `round(...)` to an integer: round half to even. -/
def pyRound (q : ℚ) : ℤ :=
  let f : ℤ := q.floor
  let r : ℚ := q - f
  if r < 1/2 then f
  else if r > 1/2 then f + 1
  else if Even f then f else f + 1

/-- Python 3's `round(x, 2)`: round half to even at two decimal places. -/
def pyRound2 (q : ℚ) : ℚ := (pyRound (q * 100) : ℚ) / 100

/-! ## TaxCalculator (`engine/taxes.py`)

`TaxCalculator.__init__` declares two bracket tables and a standard
deduction; `calculate_tax` walks the (inflation-scaled) ordinary table and
then stacks capital gains on top using the (inflation-scaled) long-term
capital-gains table. -/

/-- 2024 MFJ ordinary-income brackets: `(upper_limit, marginal_rate)`. -/
def brackets_ordinary : List (ℚ × ℚ) :=
  [(24800, 1/10), (100800, 3/25), (211400, 11/50),
   (403550, 6/25), (512450, 8/25), (768700, 7/20), (10000000, 37/100)]

/-- 2024 MFJ long-term capital-gains brackets. -/
def brackets_ltcg : List (ℚ × ℚ) :=
  [(96700, 0), (600050, 3/20), (10000000, 1/5)]

/-- 2024 MFJ standard deduction. -/
def std_deduction : ℚ := 32200

/-- The ordinary-tax bracket walk of `calculate_tax`: iterate the bracket
list in order keeping the previous limit, taxing `min taxable limit - prev`
in each bracket, and stop (`break`) once `taxable ≤ prev`. -/
def ordTaxLoop : List (ℚ × ℚ) → ℚ → ℚ → ℚ
  | [], _, _ => 0
  | (lim, rate) :: rest, taxable, prev =>
    if taxable > prev then (min taxable lim - prev) * rate + ordTaxLoop rest taxable lim
    else 0

/-- The capital-gains stacking walk of `calculate_tax`: gains occupy the
band `[floor, ceiling]`; each bracket taxes the part of the band below its
limit, the floor advances, and the loop breaks once the floor reaches the
ceiling. -/
def ltcgTaxLoop : List (ℚ × ℚ) → ℚ → ℚ → ℚ
  | [], _, _ => 0
  | (lim, rate) :: rest, fl, ce =>
    if ce > fl ∧ fl < lim then
      (min ce lim - fl) * rate +
        (if min ce lim ≥ ce then 0 else ltcgTaxLoop rest (min ce lim) ce)
    else ltcgTaxLoop rest fl ce

/-- Scale a bracket table's limits by the inflation factor
(`[(lim * inflation_factor, rate) for lim, rate in brackets]`). -/
def adjBrackets (brackets : List (ℚ × ℚ)) (inflationFactor : ℚ) : List (ℚ × ℚ) :=
  brackets.map (fun p => (p.1 * inflationFactor, p.2))

/-- `TaxCalculator.calculate_tax(ordinary_income, capital_gains, inflation_factor)`. -/
def calculate_tax (ordinaryIncome capitalGains inflationFactor : ℚ) : ℚ :=
  if ordinaryIncome + capitalGains ≤ 0 then 0
  else
    let adjStdDed := std_deduction * inflationFactor
    let adjOrd := adjBrackets brackets_ordinary inflationFactor
    let adjLtcg := adjBrackets brackets_ltcg inflationFactor
    let taxableOrd := max 0 (ordinaryIncome - adjStdDed)
    let ordTax := ordTaxLoop adjOrd taxableOrd 0
    let ltcgTax := ltcgTaxLoop adjLtcg taxableOrd (taxableOrd + capitalGains)
    ordTax + ltcgTax

/-! ## RMD factor (`engine/core.py`) -/

/-- The Uniform Lifetime RMD table declared in `run_deterministic`,
keyed by age. -/
def rmd_table : List (ℤ × ℚ) :=
  [(73, 265/10), (74, 255/10), (75, 246/10), (76, 237/10), (77, 229/10),
   (78, 22), (79, 211/10), (80, 202/10), (81, 194/10), (82, 185/10),
   (83, 177/10), (84, 168/10), (85, 16), (86, 152/10), (87, 144/10),
   (88, 137/10), (89, 129/10), (90, 122/10), (91, 115/10), (92, 108/10),
   (93, 101/10), (94, 95/10), (95, 89/10), (96, 84/10), (97, 78/10),
   (98, 73/10), (99, 68/10), (100, 64/10), (101, 6), (102, 56/10),
   (103, 52/10), (104, 49/10), (105, 46/10), (106, 43/10), (107, 41/10),
   (108, 39/10), (109, 37/10), (110, 35/10), (111, 34/10), (112, 33/10),
   (113, 31/10), (114, 3), (115, 29/10), (116, 28/10), (117, 27/10),
   (118, 25/10), (119, 23/10), (120, 2)]

/-- Dictionary lookup `table.get(age, default)`. -/
def tableLookup (table : List (ℤ × ℚ)) (age : ℤ) : Option ℚ :=
  (table.find? (fun p => p.1 = age)).map Prod.snd

/-- `get_rmd_factor(age, rmd_table)`: 0 below 73, 2.0 from 120 up, else the
table entry with fallback formula `27.4 - (age - 72)`. -/
def get_rmd_factor (age : ℤ) (table : List (ℤ × ℚ)) : ℚ :=
  if age < 73 then 0
  else if age ≥ 120 then 2
  else (tableLookup table age).getD (274/10 - ((age : ℚ) - 72))

/-! ## Mortgage (`engine/real_estate.py`)

State of one `Mortgage` instance.  `months_remaining` is kept as a natural
number: the constructor computes `int(max(0, years) * 12)` and
`make_payment` updates it with `max(0, months_remaining - num_months)`,
which is `ℕ` truncated subtraction. -/

structure MortgageState where
  principal_remaining : ℚ
  annual_interest_rate : ℚ
  years_remaining : ℚ
  original_principal : ℚ
  months_remaining : ℕ
  monthly_payment : ℚ
  interest_paid_this_year : ℚ
  principal_paid_this_year : ℚ
  deriving Repr, DecidableEq

/-- `Mortgage._calculate_monthly_payment`: the level payment from the
annuity formula `P·[c(1+c)^n]/[(1+c)^n - 1]`, or simple division when the
rate is zero, or 0 when the loan is already exhausted. -/
def calcMonthlyPayment (principal : ℚ) (annualRate : ℚ) (months : ℕ) : ℚ :=
  if principal ≤ 0 ∨ months = 0 then 0
  else
    let c := annualRate / 12
    if c = 0 then principal / months
    else principal * ((c * (1 + c) ^ months) / ((1 + c) ^ months - 1))

/-- `Mortgage.__init__(principal_remaining, annual_interest_rate, years_remaining)`. -/
def Mortgage.init (principal annualRate years : ℚ) : MortgageState :=
  let p := max 0 principal
  let r := max 0 annualRate
  let y := max 0 years
  let months := (pyTrunc (y * 12)).toNat
  { principal_remaining := p
    annual_interest_rate := r
    years_remaining := y
    original_principal := p
    months_remaining := months
    monthly_payment := calcMonthlyPayment p r months
    interest_paid_this_year := 0
    principal_paid_this_year := 0 }

/-- `Mortgage.get_annual_payment()`. -/
def MortgageState.get_annual_payment (m : MortgageState) : ℚ :=
  m.monthly_payment * 12

/-- `Mortgage.is_paid_off()`. -/
def MortgageState.is_paid_off (m : MortgageState) : Prop :=
  m.principal_remaining ≤ 0

instance (m : MortgageState) : Decidable m.is_paid_off :=
  inferInstanceAs (Decidable (m.principal_remaining ≤ 0))

/-- One iteration of the `for` loop in `Mortgage.make_payment`: pay
interest, cap the principal part at the remaining principal (re-deriving
the interest on the last partial payment), and clamp the principal at 0.
The loop-top `break` guard (`principal ≤ 0 or payment ≤ 0`) lives in
`payMonths`. -/
def payOneMonth (m : MortgageState) : MortgageState :=
  let monthlyRate := m.annual_interest_rate / 12
  let interest0 := m.principal_remaining * monthlyRate
  let principalPay0 := m.monthly_payment - interest0
  let principalPay :=
    if principalPay0 > m.principal_remaining then m.principal_remaining else principalPay0
  let interest :=
    if principalPay0 > m.principal_remaining then m.monthly_payment - m.principal_remaining
    else interest0
  { m with
    principal_remaining := max 0 (m.principal_remaining - principalPay)
    interest_paid_this_year := m.interest_paid_this_year + interest
    principal_paid_this_year := m.principal_paid_this_year + principalPay }

/-- The `for _ in range(num_months)` loop of `make_payment`, including the
early `break` when the loan is paid off or the payment is zero. -/
def payMonths : ℕ → MortgageState → MortgageState
  | 0, m => m
  | n + 1, m =>
    if m.principal_remaining ≤ 0 ∨ m.monthly_payment ≤ 0 then m
    else payMonths n (payOneMonth m)

/-- `Mortgage.make_payment(num_months)`: reset the per-year accumulators,
run the monthly loop, then recompute the remaining term and (while still
active and interest-bearing) the level payment. -/
def MortgageState.make_payment (m : MortgageState) (numMonths : ℕ) : MortgageState :=
  let m := { m with interest_paid_this_year := 0, principal_paid_this_year := 0 }
  let m := payMonths numMonths m
  if m.principal_remaining > 0 then
    let months := m.months_remaining - numMonths
    { m with
      months_remaining := months
      years_remaining := (months : ℚ) / 12
      monthly_payment :=
        if 0 < months ∧ 0 < m.annual_interest_rate then
          calcMonthlyPayment m.principal_remaining m.annual_interest_rate months
        else m.monthly_payment }
  else
    { m with months_remaining := 0, years_remaining := 0, monthly_payment := 0 }

/-! ## Withdrawal strategies (`engine/withdrawals.py`) -/

/-- The `inputs` dict handed to `execute` by the engine. -/
structure StrategyInputs where
  p1_age : ℤ
  p2_age : ℤ
  spend_goal : ℚ
  previous_year_taxes : ℚ
  target_tax_bracket_rate : ℚ
  deriving Repr, DecidableEq

/-- The `account_balances` 5-tuple `(taxable, pretax_p1, pretax_p2, roth_p1, roth_p2)`. -/
structure AccountBalances where
  b_taxable : ℚ
  b_pretax_p1 : ℚ
  b_pretax_p2 : ℚ
  b_roth_p1 : ℚ
  b_roth_p2 : ℚ
  deriving Repr, DecidableEq

/-- The `income_sources` 6-tuple `(emp_p1, emp_p2, ss_total, pens_total, rmd_p1, rmd_p2)`. -/
structure IncomeSources where
  emp_p1 : ℚ
  emp_p2 : ℚ
  ss_total : ℚ
  pens_total : ℚ
  rmd_p1 : ℚ
  rmd_p2 : ℚ
  deriving Repr, DecidableEq

/-- The dict returned by `execute`. -/
structure StrategyResult where
  wd_pretax_p1 : ℚ
  wd_pretax_p2 : ℚ
  wd_taxable : ℚ
  wd_roth_p1 : ℚ
  wd_roth_p2 : ℚ
  roth_conversion : ℚ
  conv_p1 : ℚ
  conv_p2 : ℚ
  deriving Repr, DecidableEq

/-- The repeated waterfall idiom `if shortfall > 0: take = min(shortfall, cap)`
(`take` is 0 when the guard fails). -/
def gdraw (shortfall cap : ℚ) : ℚ :=
  if shortfall > 0 then min shortfall cap else 0

/-- `_get_bracket_room(current_ord_income, inflation_idx, target_rate,
brackets_ordinary, std_deduction)`.  `StandardStrategy` and
`TaxableFirstStrategy` carry two textually identical copies of this
method; it is embedded once.  The loop takes the first bracket whose rate
equals `target_rate`; a `target_limit` of 0 (no match, or a zero scaled
limit) yields room 0. -/
def get_bracket_room (currentOrdIncome inflationIdx targetRate : ℚ)
    (bracketsOrd : List (ℚ × ℚ)) (stdDeduction : ℚ) : ℚ :=
  let adjStdDed := stdDeduction * inflationIdx
  let taxableIncome := max 0 (currentOrdIncome - adjStdDed)
  let adjBr := adjBrackets bracketsOrd inflationIdx
  let targetLimit := ((adjBr.find? (fun p => p.2 = targetRate)).map Prod.fst).getD 0
  if targetLimit = 0 then 0
  else max 0 (targetLimit - taxableIncome)

/-- The bracket-filling Roth-conversion step shared (textually duplicated)
by both strategies: convert up to the bracket room, older spouse's pretax
pool first, each conversion capped by that person's remaining pretax. -/
def rothConversionStep (p1_age p2_age : ℤ) (bracketRoom pretaxLeftP1 pretaxLeftP2 : ℚ) :
    ℚ × ℚ × ℚ :=
  if bracketRoom > 0 ∧ pretaxLeftP1 + pretaxLeftP2 > 0 then
    let conversionAmount := min bracketRoom (pretaxLeftP1 + pretaxLeftP2)
    if p1_age ≥ p2_age then
      let convP1 := min conversionAmount pretaxLeftP1
      let convP2 := min (conversionAmount - convP1) pretaxLeftP2
      (convP1 + convP2, convP1, convP2)
    else
      let convP2 := min conversionAmount pretaxLeftP2
      let convP1 := min (conversionAmount - convP2) pretaxLeftP1
      (convP1 + convP2, convP1, convP2)
  else (0, 0, 0)

/-- `StandardStrategy.execute`: waterfall pretax (older first) → taxable →
Roth (p1 then p2), then the bracket-filling Roth conversion. -/
def Standard_execute (inputs : StrategyInputs) (bal : AccountBalances)
    (inc : IncomeSources) (inflationIdx : ℚ) (_rmdTable : List (ℤ × ℚ))
    (bracketsOrd : List (ℚ × ℚ)) (stdDeduction : ℚ) : StrategyResult :=
  let rmdTotal := inc.rmd_p1 + inc.rmd_p2
  let totalIncome := inc.emp_p1 + inc.emp_p2 + inc.ss_total + inc.pens_total + rmdTotal
  let cashNeed := inputs.spend_goal + inputs.previous_year_taxes
  let shortfall0 := cashNeed - totalIncome
  let availP1 := max 0 (bal.b_pretax_p1 - inc.rmd_p1)
  let availP2 := max 0 (bal.b_pretax_p2 - inc.rmd_p2)
  let pre :=
    if shortfall0 > 0 then
      if inputs.p1_age ≥ inputs.p2_age then
        let takeP1 := min shortfall0 availP1
        (takeP1, gdraw (shortfall0 - takeP1) availP2)
      else
        let takeP2 := min shortfall0 availP2
        (gdraw (shortfall0 - takeP2) availP1, takeP2)
    else ((0 : ℚ), (0 : ℚ))
  let wdPretaxP1 := pre.1
  let wdPretaxP2 := pre.2
  let s2 := shortfall0 - wdPretaxP1 - wdPretaxP2
  let wdTaxable := if shortfall0 > 0 then gdraw s2 bal.b_taxable else 0
  let s3 := s2 - wdTaxable
  let wdRothP1 := if shortfall0 > 0 then gdraw s3 bal.b_roth_p1 else 0
  let s4 := s3 - wdRothP1
  let wdRothP2 := if shortfall0 > 0 then gdraw s4 bal.b_roth_p2 else 0
  let currentOrdIncome := inc.emp_p1 + inc.emp_p2 + inc.ss_total + inc.pens_total +
    rmdTotal + wdPretaxP1 + wdPretaxP2
  let bracketRoom := get_bracket_room currentOrdIncome inflationIdx
    inputs.target_tax_bracket_rate bracketsOrd stdDeduction
  let pretaxLeftP1 := max 0 (bal.b_pretax_p1 - inc.rmd_p1 - wdPretaxP1)
  let pretaxLeftP2 := max 0 (bal.b_pretax_p2 - inc.rmd_p2 - wdPretaxP2)
  let conv :=
    rothConversionStep inputs.p1_age inputs.p2_age bracketRoom pretaxLeftP1 pretaxLeftP2
  { wd_pretax_p1 := wdPretaxP1
    wd_pretax_p2 := wdPretaxP2
    wd_taxable := wdTaxable
    wd_roth_p1 := wdRothP1
    wd_roth_p2 := wdRothP2
    roth_conversion := conv.1
    conv_p1 := conv.2.1
    conv_p2 := conv.2.2 }

/-- `TaxableFirstStrategy.execute`: waterfall taxable → Roth (p1 then p2)
→ pretax (older first), then the identical bracket-filling Roth
conversion. -/
def TaxableFirst_execute (inputs : StrategyInputs) (bal : AccountBalances)
    (inc : IncomeSources) (inflationIdx : ℚ) (_rmdTable : List (ℤ × ℚ))
    (bracketsOrd : List (ℚ × ℚ)) (stdDeduction : ℚ) : StrategyResult :=
  let rmdTotal := inc.rmd_p1 + inc.rmd_p2
  let totalIncome := inc.emp_p1 + inc.emp_p2 + inc.ss_total + inc.pens_total + rmdTotal
  let cashNeed := inputs.spend_goal + inputs.previous_year_taxes
  let remaining0 := max 0 (cashNeed - totalIncome)
  let wdTaxable := gdraw remaining0 bal.b_taxable
  let r1 := remaining0 - wdTaxable
  let wdRothP1 := gdraw r1 bal.b_roth_p1
  let r2 := r1 - wdRothP1
  let wdRothP2 := if r1 > 0 then gdraw r2 bal.b_roth_p2 else 0
  let r3 := r2 - wdRothP2
  let availP1 := max 0 (bal.b_pretax_p1 - inc.rmd_p1)
  let availP2 := max 0 (bal.b_pretax_p2 - inc.rmd_p2)
  let pre :=
    if r3 > 0 then
      if inputs.p1_age ≥ inputs.p2_age then
        let takeP1 := min r3 availP1
        (takeP1, gdraw (r3 - takeP1) availP2)
      else
        let takeP2 := min r3 availP2
        (gdraw (r3 - takeP2) availP1, takeP2)
    else ((0 : ℚ), (0 : ℚ))
  let wdPretaxP1 := pre.1
  let wdPretaxP2 := pre.2
  let currentOrdIncome := inc.emp_p1 + inc.emp_p2 + inc.ss_total + inc.pens_total +
    rmdTotal + wdPretaxP1 + wdPretaxP2
  let bracketRoom := get_bracket_room currentOrdIncome inflationIdx
    inputs.target_tax_bracket_rate bracketsOrd stdDeduction
  let pretaxLeftP1 := max 0 (bal.b_pretax_p1 - inc.rmd_p1 - wdPretaxP1)
  let pretaxLeftP2 := max 0 (bal.b_pretax_p2 - inc.rmd_p2 - wdPretaxP2)
  let conv :=
    rothConversionStep inputs.p1_age inputs.p2_age bracketRoom pretaxLeftP1 pretaxLeftP2
  { wd_pretax_p1 := wdPretaxP1
    wd_pretax_p2 := wdPretaxP2
    wd_taxable := wdTaxable
    wd_roth_p1 := wdRothP1
    wd_roth_p2 := wdRothP2
    roth_conversion := conv.1
    conv_p1 := conv.2.1
    conv_p2 := conv.2.2 }

/-! ## Simulation engine (`engine/core.py`, `run_deterministic`)

The flat parameter map is embedded as a structure holding exactly the
fields the engine reads: keys accessed with `config[...]` (which raises
when absent) are plain fields, keys accessed with `config.get(key, d)` are
`Option` fields read through `getD`.  The dynamically numbered
`rental_{i}_*` key families are embedded as a list of per-rental records
(an absent key is `none`).  `np.random.normal` draws are modelled as an
explicit stream of per-year market adjustments; the deterministic
`volatility = 0.0` path is the constant-zero stream. -/

/-- One `rental_{i}_*` key family from the parameter map. -/
structure RentalConfig where
  value : ℚ
  income : Option ℚ := none
  growth_rate : Option ℚ := none
  income_growth_rate : Option ℚ := none
  mortgage_principal : Option ℚ := none
  mortgage_rate : Option ℚ := none
  mortgage_years : Option ℚ := none

/-- The flat numeric parameter map consumed by `run_deterministic`. -/
structure SimulationConfig where
  start_year : ℤ := 2025
  p1_start_age : ℚ
  p2_start_age : ℚ
  end_simulation_age : ℚ
  inflation_rate : ℚ
  annual_spend_goal : ℚ
  target_tax_bracket_rate : ℚ
  taxable_basis : ℚ
  bal_taxable : ℚ
  bal_pretax_p1 : ℚ
  bal_pretax_p2 : ℚ
  bal_roth_p1 : ℚ
  bal_roth_p2 : ℚ
  growth_rate_taxable : ℚ
  growth_rate_pretax_p1 : ℚ
  growth_rate_pretax_p2 : ℚ
  growth_rate_roth_p1 : ℚ
  growth_rate_roth_p2 : ℚ
  p1_employment_income : ℚ := 0
  p1_employment_until_age : ℚ := 0
  p2_employment_income : ℚ := 0
  p2_employment_until_age : ℚ := 0
  p1_ss_amount : ℚ := 0
  p1_ss_start_age : ℚ := 0
  p2_ss_amount : ℚ := 0
  p2_ss_start_age : ℚ := 0
  p1_pension : ℚ := 0
  p1_pension_start_age : ℚ := 0
  p2_pension : ℚ := 0
  p2_pension_start_age : ℚ := 0
  previous_year_taxes : Option ℚ := none
  primary_home_value : Option ℚ := none
  primary_home_growth_rate : Option ℚ := none
  primary_home_mortgage_principal : Option ℚ := none
  primary_home_mortgage_rate : Option ℚ := none
  primary_home_mortgage_years : Option ℚ := none
  rentals : List RentalConfig := []

/-- The `rate > 1 ⇒ rate / 100` legacy-percentage heuristic of
`initialize_mortgages`, applied only when the rate key is present. -/
def effectiveMortgageRate : Option ℚ → ℚ
  | none => 0
  | some r => if r > 1 then r / 100 else r

/-- Build one optional mortgage from its three config fields
(created only when `principal > 0 and years > 0`). -/
def mortgageFromConfig (principal : Option ℚ) (rate : Option ℚ) (years : Option ℚ) :
    Option MortgageState :=
  let p := principal.getD 0
  let y := years.getD 0
  if p > 0 ∧ y > 0 then some (Mortgage.init p (effectiveMortgageRate rate) y) else none

/-- `initialize_mortgages(config)`: the primary-home mortgage and the
rental mortgages. -/
def initialize_mortgages (cfg : SimulationConfig) :
    Option MortgageState × List MortgageState :=
  (mortgageFromConfig cfg.primary_home_mortgage_principal cfg.primary_home_mortgage_rate
      cfg.primary_home_mortgage_years,
   cfg.rentals.filterMap
     (fun r => mortgageFromConfig r.mortgage_principal r.mortgage_rate r.mortgage_years))

/-- One entry of the engine's `rental_assets` list (defaults already
resolved, as the engine does at parse time). -/
structure RentalAssetState where
  value : ℚ
  income : ℚ
  growth_rate : ℚ
  income_growth_rate : ℚ

/-- Parse one rental config entry into the engine's rental-asset record
(growth rates default to the inflation rate, income to 0). -/
def rentalAssetFromConfig (cfg : SimulationConfig) (r : RentalConfig) : RentalAssetState :=
  { value := r.value
    income := r.income.getD 0
    growth_rate := r.growth_rate.getD cfg.inflation_rate
    income_growth_rate := r.income_growth_rate.getD cfg.inflation_rate }

/-- The engine's mutable per-run state at the top of the year loop. -/
structure SimState where
  year : ℤ
  p1_age : ℤ
  p2_age : ℤ
  b_taxable : ℚ
  b_pretax_p1 : ℚ
  b_pretax_p2 : ℚ
  b_roth_p1 : ℚ
  b_roth_p2 : ℚ
  primary_home_value : ℚ
  rentals : List RentalAssetState
  inflation_idx : ℚ
  previous_year_taxes : ℚ
  primary_mortgage : Option MortgageState
  rental_mortgages : List MortgageState

/-- The state `run_deterministic` builds before entering the year loop. -/
def initState (cfg : SimulationConfig) : SimState :=
  { year := cfg.start_year
    p1_age := pyTrunc cfg.p1_start_age
    p2_age := pyTrunc cfg.p2_start_age
    b_taxable := cfg.bal_taxable
    b_pretax_p1 := cfg.bal_pretax_p1
    b_pretax_p2 := cfg.bal_pretax_p2
    b_roth_p1 := cfg.bal_roth_p1
    b_roth_p2 := cfg.bal_roth_p2
    primary_home_value := cfg.primary_home_value.getD 0
    rentals := cfg.rentals.map (rentalAssetFromConfig cfg)
    inflation_idx := 1
    previous_year_taxes := cfg.previous_year_taxes.getD 0
    primary_mortgage := (initialize_mortgages cfg).1
    rental_mortgages := (initialize_mortgages cfg).2 }

/-- One emitted `YearRecord` (`records.append({...})`); every money field
goes through Python's `round`. -/
structure YearRecord where
  Year : ℤ
  P1_Age : ℤ
  P2_Age : ℤ
  Employment_P1 : ℤ
  Employment_P2 : ℤ
  SS_P1 : ℤ
  SS_P2 : ℤ
  Pension_P1 : ℤ
  Pension_P2 : ℤ
  RMD_P1 : ℤ
  RMD_P2 : ℤ
  Rental_Income : ℤ
  Total_Income : ℤ
  Spend_Goal : ℤ
  Previous_Taxes : ℤ
  Cash_Need : ℤ
  WD_PreTax_P1 : ℤ
  WD_PreTax_P2 : ℤ
  WD_Taxable : ℤ
  WD_Roth_P1 : ℤ
  WD_Roth_P2 : ℤ
  Roth_Conversion : ℤ
  Conv_P1 : ℤ
  Conv_P2 : ℤ
  Ord_Income : ℤ
  Cap_Gains : ℤ
  Tax_Bill : ℤ
  Taxes_Paid : ℤ
  Bal_PreTax_P1 : ℤ
  Bal_PreTax_P2 : ℤ
  Bal_Roth_P1 : ℤ
  Bal_Roth_P2 : ℤ
  Bal_Taxable : ℤ
  Primary_Home : ℤ
  Rental_Assets : ℤ
  Net_Worth : ℤ
  Market_Return : ℚ

/-- Which strategy `run_deterministic` instantiates
(`'taxable_first'` vs. anything else → standard). -/
inductive StrategyName where
  | standard
  | taxable_first

/-- Dispatch `strategy.execute(...)`. -/
def strategyExecute : StrategyName → StrategyInputs → AccountBalances → IncomeSources →
    ℚ → List (ℤ × ℚ) → List (ℚ × ℚ) → ℚ → StrategyResult
  | .standard => Standard_execute
  | .taxable_first => TaxableFirst_execute

/-- Step 1 of the year loop: grow the five account balances by their
configured rates plus the shared market adjustment. -/
def stepBalances (cfg : SimulationConfig) (marketAdj : ℚ) (s : SimState) : AccountBalances :=
  { b_taxable := s.b_taxable * (1 + cfg.growth_rate_taxable + marketAdj)
    b_pretax_p1 := s.b_pretax_p1 * (1 + cfg.growth_rate_pretax_p1 + marketAdj)
    b_pretax_p2 := s.b_pretax_p2 * (1 + cfg.growth_rate_pretax_p2 + marketAdj)
    b_roth_p1 := s.b_roth_p1 * (1 + cfg.growth_rate_roth_p1 + marketAdj)
    b_roth_p2 := s.b_roth_p2 * (1 + cfg.growth_rate_roth_p2 + marketAdj) }

/-- The primary home growth rate
(`config.get('primary_home_growth_rate', config.get('inflation_rate', 0.025))`). -/
def primaryHomeGrowthRate (cfg : SimulationConfig) : ℚ :=
  cfg.primary_home_growth_rate.getD cfg.inflation_rate

/-- Step 2, one rental: grow the value; report declared income grown by
its own rate, or synthesize income from the grown value
(`(value / 500000) * 2000 * 12`) when no income was declared.
Returns the updated asset and this year's income contribution. -/
def stepRentalOne (r : RentalAssetState) : RentalAssetState × ℚ :=
  let value := r.value * (1 + r.growth_rate)
  if r.income = 0 then
    ({ r with value := value },
     if value > 0 then value / 500000 * 2000 * 12 else 0)
  else
    let income := r.income * (1 + r.income_growth_rate)
    ({ r with value := value, income := income }, income)

/-- Step 2 over all rentals: updated list, total rental income, total
rental value. -/
def stepRentals (s : SimState) : List RentalAssetState × ℚ × ℚ :=
  let stepped := s.rentals.map stepRentalOne
  (stepped.map Prod.fst,
   (stepped.map Prod.snd).sum,
   (stepped.map (fun p => p.1.value)).sum)

/-- Step 3 of the year loop: the eight income components.  RMDs read the
post-growth pretax balances. -/
structure IncomeBreakdown where
  emp_p1 : ℚ
  emp_p2 : ℚ
  ss_p1 : ℚ
  ss_p2 : ℚ
  pens_p1 : ℚ
  pens_p2 : ℚ
  rmd_p1 : ℚ
  rmd_p2 : ℚ

/-- The RMD for one person: only from age 73 with a positive pretax
balance and a positive table factor. -/
def rmdFor (age : ℤ) (pretaxBalance : ℚ) : ℚ :=
  if age ≥ 73 ∧ pretaxBalance > 0 then
    let factor := get_rmd_factor age rmd_table
    if factor > 0 then pretaxBalance / factor else 0
  else 0

/-- Employment while strictly under the works-until age, Social Security
and pension from their start ages on, all inflation-indexed. -/
def stepIncomes (cfg : SimulationConfig) (s : SimState) (bal : AccountBalances) :
    IncomeBreakdown :=
  { emp_p1 := if (s.p1_age : ℚ) < cfg.p1_employment_until_age then
      cfg.p1_employment_income * s.inflation_idx else 0
    emp_p2 := if (s.p2_age : ℚ) < cfg.p2_employment_until_age then
      cfg.p2_employment_income * s.inflation_idx else 0
    ss_p1 := if (s.p1_age : ℚ) ≥ cfg.p1_ss_start_age then
      cfg.p1_ss_amount * s.inflation_idx else 0
    ss_p2 := if (s.p2_age : ℚ) ≥ cfg.p2_ss_start_age then
      cfg.p2_ss_amount * s.inflation_idx else 0
    pens_p1 := if (s.p1_age : ℚ) ≥ cfg.p1_pension_start_age then
      cfg.p1_pension * s.inflation_idx else 0
    pens_p2 := if (s.p2_age : ℚ) ≥ cfg.p2_pension_start_age then
      cfg.p2_pension * s.inflation_idx else 0
    rmd_p1 := rmdFor s.p1_age bal.b_pretax_p1
    rmd_p2 := rmdFor s.p2_age bal.b_pretax_p2 }

/-- Step 3a, one mortgage: if not yet paid off, advance it 12 months and
report its (post-advance) annual payment; a paid-off mortgage contributes
0 and is left untouched. -/
def mortgageService (m : MortgageState) : MortgageState × ℚ :=
  if ¬ m.is_paid_off then
    let m2 := m.make_payment 12
    (m2, m2.get_annual_payment)
  else (m, 0)

/-- Step 3a over the primary and rental mortgages: new mortgage states and
the year's `total_mortgage_payment`. -/
def stepMortgages (s : SimState) : (Option MortgageState × List MortgageState) × ℚ :=
  let primary := s.primary_mortgage.map mortgageService
  let rentals := s.rental_mortgages.map mortgageService
  ((primary.map Prod.fst, rentals.map Prod.fst),
   (primary.map Prod.snd).getD 0 + (rentals.map Prod.snd).sum)

/-- Step 3b: the inflation-adjusted spend goal. -/
def stepSpendGoal (cfg : SimulationConfig) (s : SimState) : ℚ :=
  cfg.annual_spend_goal * s.inflation_idx

/-- Step 3b: `cash_need = spend_goal + total_mortgage_payment +
previous_year_taxes`. -/
def stepCashNeed (cfg : SimulationConfig) (s : SimState) : ℚ :=
  stepSpendGoal cfg s + (stepMortgages s).2 + s.previous_year_taxes

/-- The `strategy_inputs` dict the engine passes to `execute` (note: no
mortgage component — only the spend goal and last year's taxes). -/
def stepStrategyInputs (cfg : SimulationConfig) (s : SimState) : StrategyInputs :=
  { p1_age := s.p1_age
    p2_age := s.p2_age
    spend_goal := stepSpendGoal cfg s
    previous_year_taxes := s.previous_year_taxes
    target_tax_bracket_rate := cfg.target_tax_bracket_rate }

/-- The `income_sources` tuple the engine passes to `execute`. -/
def incomeSourcesOf (inc : IncomeBreakdown) : IncomeSources :=
  { emp_p1 := inc.emp_p1
    emp_p2 := inc.emp_p2
    ss_total := inc.ss_p1 + inc.ss_p2
    pens_total := inc.pens_p1 + inc.pens_p2
    rmd_p1 := inc.rmd_p1
    rmd_p2 := inc.rmd_p2 }

/-- Step 4: the strategy call exactly as the engine makes it. -/
def stepStrategyResult (cfg : SimulationConfig) (name : StrategyName) (marketAdj : ℚ)
    (s : SimState) : StrategyResult :=
  strategyExecute name (stepStrategyInputs cfg s) (stepBalances cfg marketAdj s)
    (incomeSourcesOf (stepIncomes cfg s (stepBalances cfg marketAdj s)))
    s.inflation_idx rmd_table brackets_ordinary std_deduction

/-- One full iteration of the year loop of `run_deterministic`: growth,
income recognition, mortgage service, withdrawal strategy, balance
updates, tax computation (carried to next year), record emission, age and
inflation advance. -/
def simStep (cfg : SimulationConfig) (name : StrategyName) (marketAdj : ℚ)
    (s : SimState) : SimState × YearRecord :=
  let year := s.year + 1
  let actualMarketReturn := cfg.growth_rate_taxable + marketAdj
  let bal := stepBalances cfg marketAdj s
  let homeValue := s.primary_home_value * (1 + primaryHomeGrowthRate cfg)
  let (rentals, rentalIncome, rentalValueTotal) := stepRentals s
  let inc := stepIncomes cfg s bal
  let rmdTotal := inc.rmd_p1 + inc.rmd_p2
  let ((primaryM, rentalMs), _totalMortgagePayment) := stepMortgages s
  let spendGoal := stepSpendGoal cfg s
  let cashNeed := stepCashNeed cfg s
  let sres := stepStrategyResult cfg name marketAdj s
  let totalIncome := inc.emp_p1 + inc.emp_p2 + (inc.ss_p1 + inc.ss_p2) +
    (inc.pens_p1 + inc.pens_p2) + rmdTotal + rentalIncome
  let bPretaxP1 := bal.b_pretax_p1 - (inc.rmd_p1 + sres.wd_pretax_p1 + sres.conv_p1)
  let bPretaxP2 := bal.b_pretax_p2 - (inc.rmd_p2 + sres.wd_pretax_p2 + sres.conv_p2)
  let bRothP1 := bal.b_roth_p1 + sres.conv_p1 - sres.wd_roth_p1
  let bRothP2 := bal.b_roth_p2 + sres.conv_p2 - sres.wd_roth_p2
  let bTaxable := bal.b_taxable - sres.wd_taxable
  let finalOrdIncome := inc.emp_p1 + inc.emp_p2 + (inc.ss_p1 + inc.ss_p2) +
    (inc.pens_p1 + inc.pens_p2) + rmdTotal + sres.wd_pretax_p1 + sres.wd_pretax_p2 +
    sres.roth_conversion + rentalIncome
  let capitalGains := sres.wd_taxable * (1 - cfg.taxable_basis)
  let taxBill := calculate_tax finalOrdIncome capitalGains s.inflation_idx
  let previousYearTaxes := taxBill
  let liquidNetWorth := bTaxable + bPretaxP1 + bPretaxP2 + bRothP1 + bRothP2
  let netWorth := liquidNetWorth + homeValue + rentalValueTotal
  let record : YearRecord :=
    { Year := year
      P1_Age := s.p1_age
      P2_Age := s.p2_age
      Employment_P1 := pyRound inc.emp_p1
      Employment_P2 := pyRound inc.emp_p2
      SS_P1 := pyRound inc.ss_p1
      SS_P2 := pyRound inc.ss_p2
      Pension_P1 := pyRound inc.pens_p1
      Pension_P2 := pyRound inc.pens_p2
      RMD_P1 := pyRound inc.rmd_p1
      RMD_P2 := pyRound inc.rmd_p2
      Rental_Income := pyRound rentalIncome
      Total_Income := pyRound totalIncome
      Spend_Goal := pyRound spendGoal
      Previous_Taxes := pyRound previousYearTaxes
      Cash_Need := pyRound cashNeed
      WD_PreTax_P1 := pyRound sres.wd_pretax_p1
      WD_PreTax_P2 := pyRound sres.wd_pretax_p2
      WD_Taxable := pyRound sres.wd_taxable
      WD_Roth_P1 := pyRound sres.wd_roth_p1
      WD_Roth_P2 := pyRound sres.wd_roth_p2
      Roth_Conversion := pyRound sres.roth_conversion
      Conv_P1 := pyRound sres.conv_p1
      Conv_P2 := pyRound sres.conv_p2
      Ord_Income := pyRound finalOrdIncome
      Cap_Gains := pyRound capitalGains
      Tax_Bill := pyRound taxBill
      Taxes_Paid := 0
      Bal_PreTax_P1 := pyRound bPretaxP1
      Bal_PreTax_P2 := pyRound bPretaxP2
      Bal_Roth_P1 := pyRound bRothP1
      Bal_Roth_P2 := pyRound bRothP2
      Bal_Taxable := pyRound bTaxable
      Primary_Home := pyRound homeValue
      Rental_Assets := pyRound rentalValueTotal
      Net_Worth := pyRound netWorth
      Market_Return := pyRound2 (actualMarketReturn * 100) }
  ({ s with
      year := year
      p1_age := s.p1_age + 1
      p2_age := s.p2_age + 1
      b_taxable := bTaxable
      b_pretax_p1 := bPretaxP1
      b_pretax_p2 := bPretaxP2
      b_roth_p1 := bRothP1
      b_roth_p2 := bRothP2
      primary_home_value := homeValue
      rentals := rentals
      inflation_idx := s.inflation_idx * (1 + cfg.inflation_rate)
      previous_year_taxes := previousYearTaxes
      primary_mortgage := primaryM
      rental_mortgages := rentalMs },
   record)

/-- The year loop, driven by the number of remaining iterations (the
`while p1_age <= end_age` condition strictly decreases
`end_age - p1_age`); `adjs` is the stream of market perturbations. -/
def runLoop (cfg : SimulationConfig) (name : StrategyName) (adjs : ℕ → ℚ) :
    ℕ → ℕ → SimState → List YearRecord
  | 0, _, _ => []
  | fuel + 1, k, s =>
    let (s2, record) := simStep cfg name (adjs k) s
    record :: runLoop cfg name adjs fuel (k + 1) s2

/-- The number of iterations of `while p1_age <= end_age`
(ages advance by exactly 1 per year). -/
def iterationCount (cfg : SimulationConfig) : ℕ :=
  (pyTrunc cfg.end_simulation_age - pyTrunc cfg.p1_start_age + 1).toNat

/-- `run_deterministic(config, strategy_name, volatility)` with the random
stream made explicit; `volatility = 0.0` corresponds to `adjs = fun _ => 0`. -/
def runWith (cfg : SimulationConfig) (name : StrategyName) (adjs : ℕ → ℚ) :
    List YearRecord :=
  runLoop cfg name adjs (iterationCount cfg) 0 (initState cfg)

/-- The deterministic run (`volatility = 0.0`: every market adjustment is 0). -/
def run_deterministic (cfg : SimulationConfig) (name : StrategyName) : List YearRecord :=
  runWith cfg name (fun _ => 0)

/-! ## Derived quantities used in the claim statements -/

/-- Total withdrawal delivered by a strategy result (the five withdrawal
fields; conversions move money between accounts and are not spendable). -/
def wdTotal (r : StrategyResult) : ℚ :=
  r.wd_pretax_p1 + r.wd_pretax_p2 + r.wd_taxable + r.wd_roth_p1 + r.wd_roth_p2

/-- The automatic income a strategy nets against its cash need
(employment + Social Security + pension + RMD). -/
def autoIncome (inc : IncomeSources) : ℚ :=
  inc.emp_p1 + inc.emp_p2 + inc.ss_total + inc.pens_total + inc.rmd_p1 + inc.rmd_p2

/-- Combined balance available to the waterfall: each pretax pool net of
its RMD (floored at 0, as the strategies do) plus the taxable and Roth
balances. -/
def availTotal (bal : AccountBalances) (inc : IncomeSources) : ℚ :=
  max 0 (bal.b_pretax_p1 - inc.rmd_p1) + max 0 (bal.b_pretax_p2 - inc.rmd_p2) +
    bal.b_taxable + bal.b_roth_p1 + bal.b_roth_p2

/-- The shortfall a strategy tries to cover: its own
`cash_need = spend_goal + previous_year_taxes` minus automatic income. -/
def strategyNeed (inputs : StrategyInputs) (inc : IncomeSources) : ℚ :=
  inputs.spend_goal + inputs.previous_year_taxes - autoIncome inc

/-! ## Proof-device definitions -/

/-- Ascending bracket chain: limits non-decreasing from `prev` and all
rates non-negative (holds for both scaled tables whenever the inflation
factor is non-negative). -/
def Asc : ℚ → List (ℚ × ℚ) → Prop
  | _, [] => True
  | prev, (lim, rate) :: rest => prev ≤ lim ∧ 0 ≤ rate ∧ Asc lim rest

/-- All marginal rates bounded by `K`. -/
def RatesLe (K : ℚ) (brackets : List (ℚ × ℚ)) : Prop :=
  ∀ p ∈ brackets, p.2 ≤ K

/-- The annuity balance sequence: `annuitySeq r m` is the balance that a
level payment of 1 exactly retires in `m` months at monthly rate `r`
(defined by the backwards recurrence `B(m+1) = (1 + B(m)) / (1 + r)`). -/
def annuitySeq (r : ℚ) : ℕ → ℚ
  | 0 => 0
  | m + 1 => (1 + annuitySeq r m) / (1 + r)

/-! ## Concrete runs used by the counterexample and bug-witness theorems -/

/-- One simulated year, a $1200 interest-free 10-year mortgage ($120/yr),
a $100 spend goal, $1000 of taxable money and no income: the engine's
`cash_need` is 220 but the strategy only targets the $100 spend goal. -/
def cfgMortgageRun : SimulationConfig :=
  { p1_start_age := 65, p2_start_age := 65, end_simulation_age := 65
    inflation_rate := 0, annual_spend_goal := 100, target_tax_bracket_rate := 0
    taxable_basis := 1
    bal_taxable := 1000, bal_pretax_p1 := 0, bal_pretax_p2 := 0
    bal_roth_p1 := 0, bal_roth_p2 := 0
    growth_rate_taxable := 0, growth_rate_pretax_p1 := 0, growth_rate_pretax_p2 := 0
    growth_rate_roth_p1 := 0, growth_rate_roth_p2 := 0
    primary_home_mortgage_principal := some 1200
    primary_home_mortgage_years := some 10 }

/-- Two simulated years with $200k employment in the first year only, so
the two tax bills differ ($26340, then $0). -/
def cfgTaxLag : SimulationConfig :=
  { p1_start_age := 64, p2_start_age := 64, end_simulation_age := 65
    inflation_rate := 0, annual_spend_goal := 0, target_tax_bracket_rate := 0
    taxable_basis := 1
    bal_taxable := 1000000, bal_pretax_p1 := 0, bal_pretax_p2 := 0
    bal_roth_p1 := 0, bal_roth_p2 := 0
    growth_rate_taxable := 0, growth_rate_pretax_p1 := 0, growth_rate_pretax_p2 := 0
    growth_rate_roth_p1 := 0, growth_rate_roth_p2 := 0
    p1_employment_income := 200000, p1_employment_until_age := 65 }

/-- One simulated year of $1000 taxable with a market perturbation of
-200% (a Monte-Carlo draw), flipping the balance to -$1000. -/
def cfgNegBalance : SimulationConfig :=
  { p1_start_age := 65, p2_start_age := 65, end_simulation_age := 65
    inflation_rate := 0, annual_spend_goal := 0, target_tax_bracket_rate := 0
    taxable_basis := 1
    bal_taxable := 1000, bal_pretax_p1 := 0, bal_pretax_p2 := 0
    bal_roth_p1 := 0, bal_roth_p2 := 0
    growth_rate_taxable := 0, growth_rate_pretax_p1 := 0, growth_rate_pretax_p2 := 0
    growth_rate_roth_p1 := 0, growth_rate_roth_p2 := 0 }

/-! # Theorems -/

/-- C4: `get_rmd_factor` returns 0 for every age below 73 (any table),
26.5 at age 73 with the engine's table, 2.0 at age 120 and beyond (any
table), and the formula `27.4 - (age - 72)` for any RMD-eligible age
(73 ≤ age < 120) with no table entry. -/
theorem rmd_factor_spec :
    (∀ (age : ℤ) (table : List (ℤ × ℚ)), age < 73 → get_rmd_factor age table = 0) ∧
    get_rmd_factor 73 rmd_table = 53/2 ∧
    get_rmd_factor 120 rmd_table = 2 ∧
    (∀ (age : ℤ) (table : List (ℤ × ℚ)), 120 ≤ age → get_rmd_factor age table = 2) ∧
    (∀ (age : ℤ) (table : List (ℤ × ℚ)), 73 ≤ age → age < 120 →
      tableLookup table age = none →
      get_rmd_factor age table = 274/10 - ((age : ℚ) - 72)) := by
  refine ⟨fun age table h => ?_, by decide, by decide, fun age table h => ?_,
    fun age table h1 h2 h3 => ?_⟩
  · simp [get_rmd_factor, h]
  · simp only [get_rmd_factor]
    rw [if_neg (by omega), if_pos (by omega)]
  · simp only [get_rmd_factor]
    rw [if_neg (by omega), if_neg (by omega), h3]
    rfl

/-- Witness for C4: age 72 gives 0, age 150 gives 2, and age 100 with an
empty table falls back to `27.4 - 28`. -/
theorem rmd_factor_spec_witness :
    get_rmd_factor 72 rmd_table = 0 ∧ get_rmd_factor 150 rmd_table = 2 ∧
      get_rmd_factor 100 [] = 274/10 - ((100 : ℚ) - 72) :=
  ⟨rmd_factor_spec.1 72 rmd_table (by decide),
   rmd_factor_spec.2.2.2.1 150 rmd_table (by decide),
   rmd_factor_spec.2.2.2.2 100 [] (by decide) (by decide) rfl⟩

/-- C10: when servicing a not-yet-paid-off mortgage whose principal
reaches 0 during the 12-month advance, the engine's per-mortgage
processing (`make_payment(12)` followed by `get_annual_payment()`) adds 0
to `total_mortgage_payment` — and hence to `cash_need` — because payoff
resets the level monthly payment to 0 before the annual payment is read. -/
theorem payoff_year_contributes_zero (m : MortgageState) (h1 : ¬ m.is_paid_off)
    (h2 : (m.make_payment 12).is_paid_off) :
    mortgageService m = (m.make_payment 12, 0) := by
  have hz : (m.make_payment 12).get_annual_payment = 0 := by
    simp only [MortgageState.is_paid_off, MortgageState.make_payment] at h2 ⊢
    by_cases hp :
      (payMonths 12 { m with interest_paid_this_year := 0, principal_paid_this_year := 0
        }).principal_remaining > 0
    · rw [if_pos hp] at h2
      simp only at h2
      exact absurd h2 (not_le.mpr hp)
    · rw [if_neg hp] at h2 ⊢
      simp [MortgageState.get_annual_payment]
  simp only [mortgageService, if_pos h1, hz]

/-- Witness for C10: a $1200 interest-free one-year mortgage pays off
within its single simulated year and contributes a 0 annual payment. -/
theorem payoff_year_contributes_zero_witness :
    ¬ (Mortgage.init 1200 0 1).is_paid_off ∧
      ((Mortgage.init 1200 0 1).make_payment 12).is_paid_off ∧
      mortgageService (Mortgage.init 1200 0 1) =
        ((Mortgage.init 1200 0 1).make_payment 12, 0) :=
  ⟨by decide, by decide,
   payoff_year_contributes_zero (Mortgage.init 1200 0 1) (by decide) (by decide)⟩

/-- Counterexample to C1 as stated: on `cfgMortgageRun` the only simulated
year has `Cash_Need = 220` (spend 100 + mortgage 120 + previous taxes 0)
and automatic income 0, yet the withdrawal strategy delivers only 100
(its own need omits the mortgage payments) while $900 of taxable balance
remains un-exhausted. -/
theorem cash_need_strategy_gap :
    (run_deterministic cfgMortgageRun .standard).map
        (fun r => (r.Cash_Need, r.Total_Income,
          r.WD_PreTax_P1 + r.WD_PreTax_P2 + r.WD_Taxable + r.WD_Roth_P1 + r.WD_Roth_P2,
          r.Bal_Taxable)) = [(220, 0, 100, 900)] ∧
      (100 : ℤ) < 220 - 0 ∧ (0 : ℤ) < 900 := by
  decide

/-- C2 on `cfgTaxLag` (a bug witness): both years report `Taxes_Paid = 0`,
but the year-1 tax bill (26340) does not reappear as year 2's
`Previous_Taxes` (which shows year 2's own bill, 0): `engine/core.py`
overwrites `previous_year_taxes` with the current bill *before* emitting
the record, unlike `retirement_planner_yr.py`, which emits first. -/
theorem previous_taxes_field_bug :
    (run_deterministic cfgTaxLag .standard).map
        (fun r => (r.Tax_Bill, r.Previous_Taxes, r.Taxes_Paid, r.Cash_Need)) =
      [(26340, 26340, 0, 0), (0, 0, 0, 26340)] ∧
      (26340 : ℤ) ≠ 0 := by
  decide

/-- C5 on `cfgNegBalance` (a bug witness): with a -200% market draw the
taxable balance flips to -$1000 and the emitted record reports
`Bal_Taxable = -1000` and `Net_Worth = -1000` — no clamping to 0
(`retirement_planner_yr.py` emits `round(max(0, ...))`; `engine/core.py`
dropped the clamp). -/
theorem negative_balance_reported :
    (runWith cfgNegBalance .standard (fun _ => -2)).map
        (fun r => (r.Bal_Taxable, r.Net_Worth)) = [(-1000, -1000)] ∧
      (-1000 : ℤ) < 0 := by
  decide

/-- Counterexample to C7 as stated: `calculate_tax` is *not* monotone in
ordinary income.  With capital gains of $9,950,000 spilling past the
scaled top bracket limit (10,000,000), raising ordinary income from
129200 to 130200 moves $1000 of gains out of the 15% band beyond the top
limit (where the loop taxes nothing) while the extra ordinary income is
taxed at only 12%, so the total tax *falls* by $30. -/
theorem tax_not_monotone :
    calculate_tax 130200 9950000 1 < calculate_tax 129200 9950000 1 := by
  decide

/-- Counterexample to C8 as stated: with a *negative* taxable balance
(which the engine does not clamp before the strategy call) the Standard
strategy returns a negative taxable withdrawal:
`wd_taxable = min(shortfall, b_taxable) = -50 < 0`. -/
theorem negative_withdrawal_possible :
    (Standard_execute
        { p1_age := 65, p2_age := 65, spend_goal := 100, previous_year_taxes := 0,
          target_tax_bracket_rate := 0 }
        { b_taxable := -50, b_pretax_p1 := 0, b_pretax_p2 := 0,
          b_roth_p1 := 200, b_roth_p2 := 0 }
        { emp_p1 := 0, emp_p2 := 0, ss_total := 0, pens_total := 0,
          rmd_p1 := 0, rmd_p2 := 0 }
        1 rmd_table brackets_ordinary std_deduction).wd_taxable < 0 := by
  decide
/-- If no bracket's rate matches the target, the bracket search of
`_get_bracket_room` comes up empty. -/
theorem find_rate_none (brs : List (ℚ × ℚ)) (infl rate : ℚ)
    (h : ∀ p ∈ brs, p.2 ≠ rate) :
    (adjBrackets brs infl).find? (fun q => q.2 = rate) = none := by
  induction brs with
  | nil => rfl
  | cons a l ih =>
    have ha : ¬ (a.2 = rate) := h a (List.mem_cons_self a l)
    simp only [adjBrackets, List.map_cons]
    rw [List.find?_cons_of_neg _ (by simpa using ha)]
    exact ih (fun p hp => h p (List.mem_cons_of_mem a hp))

/-- C9: `get_bracket_room` (the identical private helper of both
strategies, called with `TaxCalculator`'s ordinary table and standard
deduction) returns 0 whenever no bracket's marginal rate equals
`target_rate` exactly, and otherwise returns the non-negative gap between
the matched bracket's inflation-scaled upper boundary and current taxable
income (income less the scaled standard deduction, floored at 0); being a
total function, it never raises. -/
theorem bracket_room_spec (income infl rate : ℚ) :
    ((∀ p ∈ brackets_ordinary, p.2 ≠ rate) →
      get_bracket_room income infl rate brackets_ordinary std_deduction = 0) ∧
    (∀ p ∈ brackets_ordinary, p.2 = rate →
      get_bracket_room income infl rate brackets_ordinary std_deduction =
        max 0 (p.1 * infl - max 0 (income - std_deduction * infl))) := by
  have key : ∀ lim : ℚ,
      ((adjBrackets brackets_ordinary infl).find? (fun q => q.2 = rate)).map Prod.fst
        = some (lim * infl) →
      get_bracket_room income infl rate brackets_ordinary std_deduction =
        max 0 (lim * infl - max 0 (income - std_deduction * infl)) := by
    intro lim hfind
    by_cases hz : lim * infl = 0
    · simp only [get_bracket_room, hfind, Option.getD_some, hz, if_pos rfl]
      rw [eq_comm, max_eq_left (by simp [sub_nonpos])]
      simp
    · simp [get_bracket_room, hfind, hz]
  constructor
  · intro h
    simp [get_bracket_room, find_rate_none brackets_ordinary infl rate h]
  · intro p hp hrate
    simp only [brackets_ordinary, List.mem_cons, List.not_mem_nil, or_false] at hp
    rcases hp with rfl | rfl | rfl | rfl | rfl | rfl | rfl
    all_goals simp only at hrate
    all_goals subst hrate
    all_goals exact key _ rfl

/-- Witness for C9: a 50% target matches no bracket (room 0), while a 24%
target at $100k income and inflation 1 leaves room
`403550 - (100000 - 32200) = 335750`. -/
theorem bracket_room_spec_witness :
    get_bracket_room 100000 1 (1/2) brackets_ordinary std_deduction = 0 ∧
      get_bracket_room 100000 1 (6/25) brackets_ordinary std_deduction =
        max 0 (403550 * 1 - max 0 (100000 - std_deduction * 1)) :=
  ⟨(bracket_room_spec 100000 1 (1/2)).1 (by decide),
   (bracket_room_spec 100000 1 (6/25)).2 (403550, 6/25) (by decide) rfl⟩
/-- A guarded draw is non-negative when its cap is. -/
theorem gdraw_nonneg {s c : ℚ} (hc : 0 ≤ c) : 0 ≤ gdraw s c := by
  unfold gdraw; split_ifs with h
  · exact le_min h.le hc
  · exact le_rfl

/-- A guarded draw never exceeds its (non-negative) cap. -/
theorem gdraw_le_cap {s c : ℚ} (hc : 0 ≤ c) : gdraw s c ≤ c := by
  unfold gdraw; split_ifs with h
  · exact min_le_right _ _
  · exact hc

/-- A guarded draw never exceeds a non-negative shortfall. -/
theorem gdraw_le_shortfall {s c : ℚ} (hs : 0 ≤ s) : gdraw s c ≤ s := by
  unfold gdraw; split_ifs with h
  · exact min_le_left _ _
  · exact hs

/-- On a non-negative shortfall a guarded draw with non-negative cap is
just the minimum. -/
theorem gdraw_eq_min {s c : ℚ} (hs : 0 ≤ s) (hc : 0 ≤ c) : gdraw s c = min s c := by
  unfold gdraw; split_ifs with h
  · rfl
  · have : s = 0 := le_antisymm (not_lt.mp h) hs
    simp [this, hc]

/-- Waterfall merge: a draw of `min s C` followed by a guarded draw capped
at `c ≥ 0` delivers `min s (C + c)` in total. -/
theorem min_add_gdraw {s C c : ℚ} (hc : 0 ≤ c) :
    min s C + gdraw (s - min s C) c = min s (C + c) := by
  unfold gdraw
  rcases le_total s C with h | h <;> rcases le_total s (C + c) with h' | h' <;>
    simp only [min_def] <;> split_ifs <;> linarith

/-- An entire guarded two-source cascade equals a single guarded draw at
the summed cap. -/
theorem gdraw_split {s a b : ℚ} (hb : 0 ≤ b) :
    (if s > 0 then min s a + gdraw (s - min s a) b else 0) = gdraw s (a + b) := by
  split_ifs with h
  · rw [min_add_gdraw hb]; unfold gdraw; rw [if_pos h]
  · unfold gdraw; rw [if_neg h]

/-- The redundant outer guard on the second Roth draw can be dropped: if
the pre-Roth shortfall is not positive, the inner guarded draw is 0 anyway. -/
theorem gdraw_guard_absorb {r c1 c2 : ℚ} :
    (if r > 0 then gdraw (r - gdraw r c1) c2 else 0) = gdraw (r - gdraw r c1) c2 := by
  split_ifs with h
  · rfl
  · unfold gdraw
    rw [if_neg h, sub_zero, if_neg h]
set_option maxHeartbeats 1000000 in
/-- The Standard waterfall delivers exactly
`min (max 0 need) available` (for non-negative taxable and Roth
balances): the positive shortfall when it is coverable, everything
available when it is not, and nothing when there is no shortfall. -/
theorem Standard_delivers (inputs : StrategyInputs) (bal : AccountBalances)
    (inc : IncomeSources) (infl : ℚ) (tb : List (ℤ × ℚ)) (brs : List (ℚ × ℚ)) (sd : ℚ)
    (ht : 0 ≤ bal.b_taxable) (hr1 : 0 ≤ bal.b_roth_p1) (hr2 : 0 ≤ bal.b_roth_p2) :
    wdTotal (Standard_execute inputs bal inc infl tb brs sd) =
      min (max 0 (strategyNeed inputs inc)) (availTotal bal inc) := by
  unfold Standard_execute wdTotal
  dsimp only
  set s0 := inputs.spend_goal + inputs.previous_year_taxes -
      (inc.emp_p1 + inc.emp_p2 + inc.ss_total + inc.pens_total + (inc.rmd_p1 + inc.rmd_p2))
    with hs0def
  set a1 := (0 : ℚ) ⊔ (bal.b_pretax_p1 - inc.rmd_p1) with ha1def
  set a2 := (0 : ℚ) ⊔ (bal.b_pretax_p2 - inc.rmd_p2) with ha2def
  have ha1 : 0 ≤ a1 := le_max_left _ _
  have ha2 : 0 ≤ a2 := le_max_left _ _
  have hneed : strategyNeed inputs inc = s0 := by
    rw [hs0def]; unfold strategyNeed autoIncome; ring
  have havail : availTotal bal inc =
      a1 + a2 + bal.b_taxable + bal.b_roth_p1 + bal.b_roth_p2 := by
    rw [ha1def, ha2def]; unfold availTotal; rfl
  rw [hneed, havail]
  by_cases h0 : s0 > 0
  · rw [if_pos h0, if_pos h0, if_pos h0, if_pos h0, max_eq_right h0.le]
    by_cases hAge : inputs.p1_age ≥ inputs.p2_age
    · rw [if_pos hAge]
      dsimp only
      have e2 : min s0 a1 + gdraw (s0 - min s0 a1) a2 = min s0 (a1 + a2) :=
        min_add_gdraw ha2
      have r2 : s0 - min s0 a1 - gdraw (s0 - min s0 a1) a2 = s0 - min s0 (a1 + a2) := by
        rw [sub_sub, e2]
      rw [r2]
      have e3 : min s0 (a1 + a2) + gdraw (s0 - min s0 (a1 + a2)) bal.b_taxable =
          min s0 (a1 + a2 + bal.b_taxable) := min_add_gdraw ht
      have r3 : s0 - min s0 (a1 + a2) - gdraw (s0 - min s0 (a1 + a2)) bal.b_taxable =
          s0 - min s0 (a1 + a2 + bal.b_taxable) := by rw [sub_sub, e3]
      rw [r3]
      have e4 : min s0 (a1 + a2 + bal.b_taxable) +
          gdraw (s0 - min s0 (a1 + a2 + bal.b_taxable)) bal.b_roth_p1 =
          min s0 (a1 + a2 + bal.b_taxable + bal.b_roth_p1) := min_add_gdraw hr1
      have r4 : s0 - min s0 (a1 + a2 + bal.b_taxable) -
          gdraw (s0 - min s0 (a1 + a2 + bal.b_taxable)) bal.b_roth_p1 =
          s0 - min s0 (a1 + a2 + bal.b_taxable + bal.b_roth_p1) := by rw [sub_sub, e4]
      rw [r4]
      have e5 : min s0 (a1 + a2 + bal.b_taxable + bal.b_roth_p1) +
          gdraw (s0 - min s0 (a1 + a2 + bal.b_taxable + bal.b_roth_p1)) bal.b_roth_p2 =
          min s0 (a1 + a2 + bal.b_taxable + bal.b_roth_p1 + bal.b_roth_p2) :=
        min_add_gdraw hr2
      linarith [e2, e3, e4, e5]
    · rw [if_neg hAge]
      dsimp only
      have e2 : min s0 a2 + gdraw (s0 - min s0 a2) a1 = min s0 (a2 + a1) :=
        min_add_gdraw ha1
      have r2 : s0 - gdraw (s0 - min s0 a2) a1 - min s0 a2 = s0 - min s0 (a2 + a1) := by
        rw [← e2]; ring
      rw [r2]
      have hc : a2 + a1 = a1 + a2 := by ring
      rw [hc] at e2 r2 ⊢
      have e3 : min s0 (a1 + a2) + gdraw (s0 - min s0 (a1 + a2)) bal.b_taxable =
          min s0 (a1 + a2 + bal.b_taxable) := min_add_gdraw ht
      have r3 : s0 - min s0 (a1 + a2) - gdraw (s0 - min s0 (a1 + a2)) bal.b_taxable =
          s0 - min s0 (a1 + a2 + bal.b_taxable) := by rw [sub_sub, e3]
      rw [r3]
      have e4 : min s0 (a1 + a2 + bal.b_taxable) +
          gdraw (s0 - min s0 (a1 + a2 + bal.b_taxable)) bal.b_roth_p1 =
          min s0 (a1 + a2 + bal.b_taxable + bal.b_roth_p1) := min_add_gdraw hr1
      have r4 : s0 - min s0 (a1 + a2 + bal.b_taxable) -
          gdraw (s0 - min s0 (a1 + a2 + bal.b_taxable)) bal.b_roth_p1 =
          s0 - min s0 (a1 + a2 + bal.b_taxable + bal.b_roth_p1) := by rw [sub_sub, e4]
      rw [r4]
      have e5 : min s0 (a1 + a2 + bal.b_taxable + bal.b_roth_p1) +
          gdraw (s0 - min s0 (a1 + a2 + bal.b_taxable + bal.b_roth_p1)) bal.b_roth_p2 =
          min s0 (a1 + a2 + bal.b_taxable + bal.b_roth_p1 + bal.b_roth_p2) :=
        min_add_gdraw hr2
      linarith [e2, e3, e4, e5]
  · rw [if_neg h0, if_neg h0, if_neg h0, if_neg h0]
    dsimp only
    rw [max_eq_left (not_lt.mp h0)]
    rw [min_eq_left (by positivity)]
    norm_num
set_option maxHeartbeats 1000000 in
/-- The TaxableFirst waterfall also delivers exactly
`min (max 0 need) available` for non-negative taxable and Roth balances. -/
theorem TaxableFirst_delivers (inputs : StrategyInputs) (bal : AccountBalances)
    (inc : IncomeSources) (infl : ℚ) (tb : List (ℤ × ℚ)) (brs : List (ℚ × ℚ)) (sd : ℚ)
    (ht : 0 ≤ bal.b_taxable) (hr1 : 0 ≤ bal.b_roth_p1) (hr2 : 0 ≤ bal.b_roth_p2) :
    wdTotal (TaxableFirst_execute inputs bal inc infl tb brs sd) =
      min (max 0 (strategyNeed inputs inc)) (availTotal bal inc) := by
  unfold TaxableFirst_execute wdTotal
  dsimp only
  set m0 := (0 : ℚ) ⊔ (inputs.spend_goal + inputs.previous_year_taxes -
      (inc.emp_p1 + inc.emp_p2 + inc.ss_total + inc.pens_total + (inc.rmd_p1 + inc.rmd_p2)))
    with hm0def
  set a1 := (0 : ℚ) ⊔ (bal.b_pretax_p1 - inc.rmd_p1) with ha1def
  set a2 := (0 : ℚ) ⊔ (bal.b_pretax_p2 - inc.rmd_p2) with ha2def
  have hm0 : 0 ≤ m0 := by rw [hm0def]; exact le_max_left _ _
  have ha1 : 0 ≤ a1 := le_max_left _ _
  have ha2 : 0 ≤ a2 := le_max_left _ _
  have hneed : (0 : ℚ) ⊔ strategyNeed inputs inc = m0 := by
    rw [hm0def]
    have : strategyNeed inputs inc = inputs.spend_goal + inputs.previous_year_taxes -
        (inc.emp_p1 + inc.emp_p2 + inc.ss_total + inc.pens_total +
          (inc.rmd_p1 + inc.rmd_p2)) := by
      unfold strategyNeed autoIncome; ring
    rw [this]
  have havail : availTotal bal inc =
      a1 + a2 + bal.b_taxable + bal.b_roth_p1 + bal.b_roth_p2 := by
    rw [ha1def, ha2def]; unfold availTotal; rfl
  rw [hneed, havail]
  -- first draw: taxable
  rw [gdraw_eq_min hm0 ht]
  -- roth p1
  have e2 : min m0 bal.b_taxable + gdraw (m0 - min m0 bal.b_taxable) bal.b_roth_p1 =
      min m0 (bal.b_taxable + bal.b_roth_p1) := min_add_gdraw hr1
  have r2 : m0 - min m0 bal.b_taxable - gdraw (m0 - min m0 bal.b_taxable) bal.b_roth_p1 =
      m0 - min m0 (bal.b_taxable + bal.b_roth_p1) := by rw [sub_sub, e2]
  -- the guarded roth p2 draw: absorb the outer guard, then merge
  rw [gdraw_guard_absorb]
  rw [r2]
  have e3 : min m0 (bal.b_taxable + bal.b_roth_p1) +
      gdraw (m0 - min m0 (bal.b_taxable + bal.b_roth_p1)) bal.b_roth_p2 =
      min m0 (bal.b_taxable + bal.b_roth_p1 + bal.b_roth_p2) := min_add_gdraw hr2
  have r3 : m0 - min m0 (bal.b_taxable + bal.b_roth_p1) -
      gdraw (m0 - min m0 (bal.b_taxable + bal.b_roth_p1)) bal.b_roth_p2 =
      m0 - min m0 (bal.b_taxable + bal.b_roth_p1 + bal.b_roth_p2) := by rw [sub_sub, e3]
  rw [r3]
  set B := bal.b_taxable + bal.b_roth_p1 + bal.b_roth_p2 with hBdef
  set r3v := m0 - min m0 B with hr3def
  -- the pretax tail
  by_cases h3 : r3v > 0
  · rw [if_pos h3]
    by_cases hAge : inputs.p1_age ≥ inputs.p2_age
    · rw [if_pos hAge]
      dsimp only
      have e4 : min r3v a1 + gdraw (r3v - min r3v a1) a2 = min r3v (a1 + a2) :=
        min_add_gdraw ha2
      have e5 : min m0 B + min r3v (a1 + a2) = min m0 (B + (a1 + a2)) := by
        have := min_add_gdraw (c := a1 + a2) (s := m0) (C := B) (by positivity)
        rw [gdraw_eq_min (by linarith [min_le_left m0 B]) (by positivity)] at this
        rw [← hr3def] at this
        exact this
      have hB5 : B + (a1 + a2) = a1 + a2 + bal.b_taxable + bal.b_roth_p1 + bal.b_roth_p2 := by
        rw [hBdef]; ring
      rw [hB5] at e5
      linarith [e4, e5]
    · rw [if_neg hAge]
      dsimp only
      have e4 : min r3v a2 + gdraw (r3v - min r3v a2) a1 = min r3v (a2 + a1) :=
        min_add_gdraw ha1
      have e5 : min m0 B + min r3v (a2 + a1) = min m0 (B + (a2 + a1)) := by
        have := min_add_gdraw (c := a2 + a1) (s := m0) (C := B) (by positivity)
        rw [gdraw_eq_min (by linarith [min_le_left m0 B]) (by positivity)] at this
        rw [← hr3def] at this
        exact this
      have hB5 : B + (a2 + a1) = a1 + a2 + bal.b_taxable + bal.b_roth_p1 + bal.b_roth_p2 := by
        rw [hBdef]; ring
      rw [hB5] at e5
      linarith [e4, e5]
  · rw [if_neg h3]
    dsimp only
    -- no pretax need: m0 is fully covered by B already
    have hm0B : m0 ≤ B := by
      have h3' : m0 - min m0 B ≤ 0 := not_lt.mp h3
      rcases le_total m0 B with h | h
      · exact h
      · rw [min_eq_right h] at h3'; linarith
    have hB' : m0 ≤ a1 + a2 + bal.b_taxable + bal.b_roth_p1 + bal.b_roth_p2 := by
      rw [hBdef] at hm0B; linarith
    have hminB : m0 ⊓ B = m0 := min_eq_left hm0B
    have hminA : m0 ⊓ (a1 + a2 + bal.b_taxable + bal.b_roth_p1 + bal.b_roth_p2) = m0 :=
      min_eq_left hB'
    linarith [e2, e3, hminB, hminA]
set_option maxHeartbeats 1000000 in
/-- A three-stage guarded cascade delivers its whole (non-negative)
shortfall whenever the caps jointly cover it, whatever their signs. -/
theorem chain3_cover {s bt r1 r2 : ℚ} (hs : 0 ≤ s) (hcov : 0 < s → s ≤ bt + r1 + r2) :
    gdraw s bt + gdraw (s - gdraw s bt) r1 +
      gdraw (s - gdraw s bt - gdraw (s - gdraw s bt) r1) r2 = s := by
  by_cases h1 : 0 < s
  · have hc := hcov h1
    unfold gdraw
    rcases le_total s bt with hA | hA <;> rcases le_total (s - bt) r1 with hB | hB <;>
      simp only [min_def] <;> split_ifs <;> linarith
  · have h0 : s = 0 := le_antisymm (not_lt.mp h1) hs
    subst h0
    simp [gdraw]

/-- A four-stage guarded cascade delivers its whole (non-negative)
shortfall whenever the caps jointly cover it, whatever their signs. -/
theorem chain4_cover {s c1 c2 c3 c4 : ℚ} (hs : 0 ≤ s)
    (hcov : 0 < s → s ≤ c1 + c2 + c3 + c4) :
    gdraw s c1 + gdraw (s - gdraw s c1) c2 +
      gdraw (s - gdraw s c1 - gdraw (s - gdraw s c1) c2) c3 +
      gdraw (s - gdraw s c1 - gdraw (s - gdraw s c1) c2 -
        gdraw (s - gdraw s c1 - gdraw (s - gdraw s c1) c2) c3) c4 = s := by
  have hs' : 0 ≤ s - gdraw s c1 := by
    have := gdraw_le_shortfall (c := c1) hs
    linarith
  have hcov' : 0 < s - gdraw s c1 → s - gdraw s c1 ≤ c2 + c3 + c4 := by
    intro h'
    have h1 : 0 < s := by
      by_contra h
      have h0 : s = 0 := le_antisymm (not_lt.mp h) hs
      subst h0
      simp [gdraw] at h'
    have hc := hcov h1
    unfold gdraw at h' ⊢
    rw [if_pos h1] at h' ⊢
    rcases le_total s c1 with h | h
    · rw [min_eq_left h] at h' ⊢
      linarith
    · rw [min_eq_right h] at h' ⊢
      linarith
  have h3 := chain3_cover hs' hcov'
  linarith [h3]
set_option maxHeartbeats 1000000 in
/-- C3: waterfall conservation.  Whenever the strategy's cash need minus
automatic income is positive and the combined available balances (pretax
net of RMDs, floored at 0, plus taxable and Roth) cover it, both the
Standard and the TaxableFirst strategy return withdrawals that sum to
exactly that shortfall — no excess, no shortfall, for any balance signs. -/
theorem waterfall_conservation (inputs : StrategyInputs) (bal : AccountBalances)
    (inc : IncomeSources) (infl : ℚ) (tb : List (ℤ × ℚ)) (brs : List (ℚ × ℚ)) (sd : ℚ)
    (hpos : 0 < strategyNeed inputs inc)
    (hcov : strategyNeed inputs inc ≤ availTotal bal inc) :
    wdTotal (Standard_execute inputs bal inc infl tb brs sd) = strategyNeed inputs inc ∧
    wdTotal (TaxableFirst_execute inputs bal inc infl tb brs sd) = strategyNeed inputs inc := by
  constructor
  · unfold Standard_execute wdTotal
    dsimp only
    set s0 := inputs.spend_goal + inputs.previous_year_taxes -
        (inc.emp_p1 + inc.emp_p2 + inc.ss_total + inc.pens_total + (inc.rmd_p1 + inc.rmd_p2))
      with hs0def
    set a1 := (0 : ℚ) ⊔ (bal.b_pretax_p1 - inc.rmd_p1) with ha1def
    set a2 := (0 : ℚ) ⊔ (bal.b_pretax_p2 - inc.rmd_p2) with ha2def
    have ha1 : 0 ≤ a1 := le_max_left _ _
    have ha2 : 0 ≤ a2 := le_max_left _ _
    have hneed : strategyNeed inputs inc = s0 := by
      rw [hs0def]; unfold strategyNeed autoIncome; ring
    have havail : availTotal bal inc =
        a1 + a2 + bal.b_taxable + bal.b_roth_p1 + bal.b_roth_p2 := by
      rw [ha1def, ha2def]; unfold availTotal; rfl
    rw [hneed] at hpos hcov ⊢
    rw [havail] at hcov
    rw [if_pos hpos, if_pos hpos, if_pos hpos, if_pos hpos]
    by_cases hAge : inputs.p1_age ≥ inputs.p2_age
    · rw [if_pos hAge]
      dsimp only
      have e2 : min s0 a1 + gdraw (s0 - min s0 a1) a2 = min s0 (a1 + a2) :=
        min_add_gdraw ha2
      have r2 : s0 - min s0 a1 - gdraw (s0 - min s0 a1) a2 = s0 - min s0 (a1 + a2) := by
        rw [sub_sub, e2]
      rw [r2]
      have hs2 : 0 ≤ s0 - min s0 (a1 + a2) := by
        have := min_le_left s0 (a1 + a2); linarith
      have hcov3 : 0 < s0 - min s0 (a1 + a2) →
          s0 - min s0 (a1 + a2) ≤ bal.b_taxable + bal.b_roth_p1 + bal.b_roth_p2 := by
        intro h'
        rcases le_total s0 (a1 + a2) with h | h
        · rw [min_eq_left h] at h'; linarith
        · rw [min_eq_right h] at h' ⊢; linarith
      have h3 := chain3_cover hs2 hcov3
      linarith [e2, h3]
    · rw [if_neg hAge]
      dsimp only
      have e2 : min s0 a2 + gdraw (s0 - min s0 a2) a1 = min s0 (a2 + a1) :=
        min_add_gdraw ha1
      have r2 : s0 - gdraw (s0 - min s0 a2) a1 - min s0 a2 = s0 - min s0 (a2 + a1) := by
        rw [← e2]; ring
      rw [r2]
      have hs2 : 0 ≤ s0 - min s0 (a2 + a1) := by
        have := min_le_left s0 (a2 + a1); linarith
      have hcov3 : 0 < s0 - min s0 (a2 + a1) →
          s0 - min s0 (a2 + a1) ≤ bal.b_taxable + bal.b_roth_p1 + bal.b_roth_p2 := by
        intro h'
        rcases le_total s0 (a2 + a1) with h | h
        · rw [min_eq_left h] at h'; linarith
        · rw [min_eq_right h] at h' ⊢; linarith
      have h3 := chain3_cover hs2 hcov3
      linarith [e2, h3]
  · unfold TaxableFirst_execute wdTotal
    dsimp only
    set m0 := (0 : ℚ) ⊔ (inputs.spend_goal + inputs.previous_year_taxes -
        (inc.emp_p1 + inc.emp_p2 + inc.ss_total + inc.pens_total + (inc.rmd_p1 + inc.rmd_p2)))
      with hm0def
    set a1 := (0 : ℚ) ⊔ (bal.b_pretax_p1 - inc.rmd_p1) with ha1def
    set a2 := (0 : ℚ) ⊔ (bal.b_pretax_p2 - inc.rmd_p2) with ha2def
    have ha1 : 0 ≤ a1 := le_max_left _ _
    have ha2 : 0 ≤ a2 := le_max_left _ _
    have hneedm : m0 = strategyNeed inputs inc := by
      rw [hm0def]
      have h : inputs.spend_goal + inputs.previous_year_taxes -
          (inc.emp_p1 + inc.emp_p2 + inc.ss_total + inc.pens_total +
            (inc.rmd_p1 + inc.rmd_p2)) = strategyNeed inputs inc := by
        unfold strategyNeed autoIncome; ring
      rw [h, max_eq_right hpos.le]
    have havail : availTotal bal inc =
        a1 + a2 + bal.b_taxable + bal.b_roth_p1 + bal.b_roth_p2 := by
      rw [ha1def, ha2def]; unfold availTotal; rfl
    rw [gdraw_guard_absorb]
    by_cases hAge : inputs.p1_age ≥ inputs.p2_age
    · rw [if_pos hAge]
      have hsplit : ∀ r3v : ℚ,
          (if r3v > 0 then (min r3v a1, gdraw (r3v - min r3v a1) a2)
            else ((0 : ℚ), (0 : ℚ))).1 +
          (if r3v > 0 then (min r3v a1, gdraw (r3v - min r3v a1) a2)
            else ((0 : ℚ), (0 : ℚ))).2 = gdraw r3v (a1 + a2) := by
        intro r3v
        by_cases h3 : r3v > 0
        · rw [if_pos h3]
          dsimp only
          rw [min_add_gdraw ha2]
          unfold gdraw
          rw [if_pos h3]
        · rw [if_neg h3]
          unfold gdraw
          rw [if_neg h3]
          norm_num
      rw [hsplit]
      have h4 := @chain4_cover m0 bal.b_taxable bal.b_roth_p1 bal.b_roth_p2
        (a1 + a2) (le_max_left _ _)
        (fun _ => by rw [hneedm]; rw [havail] at hcov; linarith)
      rw [hneedm] at h4 ⊢
      linarith [h4]
    · rw [if_neg hAge]
      have hsplit : ∀ r3v : ℚ,
          (if r3v > 0 then (gdraw (r3v - min r3v a2) a1, min r3v a2)
            else ((0 : ℚ), (0 : ℚ))).1 +
          (if r3v > 0 then (gdraw (r3v - min r3v a2) a1, min r3v a2)
            else ((0 : ℚ), (0 : ℚ))).2 = gdraw r3v (a1 + a2) := by
        intro r3v
        by_cases h3 : r3v > 0
        · rw [if_pos h3]
          dsimp only
          rw [add_comm, min_add_gdraw ha1, add_comm a2 a1]
          unfold gdraw
          rw [if_pos h3]
        · rw [if_neg h3]
          unfold gdraw
          rw [if_neg h3]
          norm_num
      rw [hsplit]
      have h4 := @chain4_cover m0 bal.b_taxable bal.b_roth_p1 bal.b_roth_p2
        (a1 + a2) (le_max_left _ _)
        (fun _ => by rw [hneedm]; rw [havail] at hcov; linarith)
      rw [hneedm] at h4 ⊢
      linarith [h4]

/-- Witness for C3: spend goal 100, no income, $80 taxable + $30/$10 Roth
(available 120 ≥ 100): both strategies deliver exactly 100. -/
theorem waterfall_conservation_witness :
    wdTotal (Standard_execute ⟨65, 65, 100, 0, 0⟩ ⟨80, 0, 0, 30, 10⟩ ⟨0, 0, 0, 0, 0, 0⟩
        1 rmd_table brackets_ordinary std_deduction) =
      strategyNeed ⟨65, 65, 100, 0, 0⟩ ⟨0, 0, 0, 0, 0, 0⟩ ∧
    wdTotal (TaxableFirst_execute ⟨65, 65, 100, 0, 0⟩ ⟨80, 0, 0, 30, 10⟩ ⟨0, 0, 0, 0, 0, 0⟩
        1 rmd_table brackets_ordinary std_deduction) =
      strategyNeed ⟨65, 65, 100, 0, 0⟩ ⟨0, 0, 0, 0, 0, 0⟩ :=
  waterfall_conservation ⟨65, 65, 100, 0, 0⟩ ⟨80, 0, 0, 30, 10⟩ ⟨0, 0, 0, 0, 0, 0⟩
    1 rmd_table brackets_ordinary std_deduction (by decide) (by decide)
/-- C1 (amended): in every simulated year the engine's cash need is the
inflation-adjusted spend goal plus the year's total mortgage payments plus
the previous year's tax bill; the withdrawal strategy invoked that year
(either one) covers `cash_need - mortgage_payments - automatic_income`
exactly whenever that amount is positive and coverable — it is the
engine's reported cash need *less the mortgage payments* that the strategy
targets, under-delivering (to exactly the available total) only when all
withdrawal sources are exhausted.  Stated for non-negative post-growth
taxable and Roth balances. -/
theorem engine_cash_need_and_coverage (cfg : SimulationConfig) (name : StrategyName)
    (adj : ℚ) (s : SimState) :
    stepCashNeed cfg s = stepSpendGoal cfg s + (stepMortgages s).2 + s.previous_year_taxes ∧
    (0 ≤ (stepBalances cfg adj s).b_taxable →
      0 ≤ (stepBalances cfg adj s).b_roth_p1 →
      0 ≤ (stepBalances cfg adj s).b_roth_p2 →
      wdTotal (stepStrategyResult cfg name adj s) =
        min (max 0 (stepCashNeed cfg s - (stepMortgages s).2 -
            autoIncome (incomeSourcesOf (stepIncomes cfg s (stepBalances cfg adj s)))))
          (availTotal (stepBalances cfg adj s)
            (incomeSourcesOf (stepIncomes cfg s (stepBalances cfg adj s))))) := by
  refine ⟨rfl, fun ht hr1 hr2 => ?_⟩
  have hneed : stepCashNeed cfg s - (stepMortgages s).2 -
      autoIncome (incomeSourcesOf (stepIncomes cfg s (stepBalances cfg adj s))) =
      strategyNeed (stepStrategyInputs cfg s)
        (incomeSourcesOf (stepIncomes cfg s (stepBalances cfg adj s))) := by
    unfold stepCashNeed strategyNeed stepStrategyInputs
    dsimp only
    ring
  rw [hneed]
  cases name with
  | standard =>
    exact Standard_delivers (stepStrategyInputs cfg s) (stepBalances cfg adj s)
      (incomeSourcesOf (stepIncomes cfg s (stepBalances cfg adj s)))
      s.inflation_idx rmd_table brackets_ordinary std_deduction ht hr1 hr2
  | taxable_first =>
    exact TaxableFirst_delivers (stepStrategyInputs cfg s) (stepBalances cfg adj s)
      (incomeSourcesOf (stepIncomes cfg s (stepBalances cfg adj s)))
      s.inflation_idx rmd_table brackets_ordinary std_deduction ht hr1 hr2

/-- Witness for the amended C1 on the concrete mortgage run: cash need
220 = 100 + 120 + 0, and the strategy delivers
`min (max 0 (220 - 120 - 0)) 1000 = 100`. -/
theorem engine_cash_need_and_coverage_witness :
    (stepCashNeed cfgMortgageRun (initState cfgMortgageRun) =
      stepSpendGoal cfgMortgageRun (initState cfgMortgageRun) +
        (stepMortgages (initState cfgMortgageRun)).2 +
        (initState cfgMortgageRun).previous_year_taxes) ∧
    wdTotal (stepStrategyResult cfgMortgageRun .standard 0 (initState cfgMortgageRun)) =
      min (max 0 (stepCashNeed cfgMortgageRun (initState cfgMortgageRun) -
          (stepMortgages (initState cfgMortgageRun)).2 -
          autoIncome (incomeSourcesOf (stepIncomes cfgMortgageRun (initState cfgMortgageRun)
            (stepBalances cfgMortgageRun 0 (initState cfgMortgageRun))))))
        (availTotal (stepBalances cfgMortgageRun 0 (initState cfgMortgageRun))
          (incomeSourcesOf (stepIncomes cfgMortgageRun (initState cfgMortgageRun)
            (stepBalances cfgMortgageRun 0 (initState cfgMortgageRun))))) :=
  ⟨(engine_cash_need_and_coverage cfgMortgageRun .standard 0 (initState cfgMortgageRun)).1,
   (engine_cash_need_and_coverage cfgMortgageRun .standard 0 (initState cfgMortgageRun)).2
     (by decide) (by decide) (by decide)⟩
/-- Bounds on the shared Roth-conversion step: both conversions are
non-negative, each is capped by its person's remaining pretax pool, and
the reported total is their sum. -/
theorem rothConversionStep_bounds (p1 p2 : ℤ) (room l1 l2 : ℚ)
    (h1 : 0 ≤ l1) (h2 : 0 ≤ l2) :
    0 ≤ (rothConversionStep p1 p2 room l1 l2).2.1 ∧
    0 ≤ (rothConversionStep p1 p2 room l1 l2).2.2 ∧
    (rothConversionStep p1 p2 room l1 l2).2.1 ≤ l1 ∧
    (rothConversionStep p1 p2 room l1 l2).2.2 ≤ l2 ∧
    (rothConversionStep p1 p2 room l1 l2).1 =
      (rothConversionStep p1 p2 room l1 l2).2.1 +
        (rothConversionStep p1 p2 room l1 l2).2.2 := by
  unfold rothConversionStep
  split_ifs with hcond hAge
  · dsimp only
    have hca : 0 ≤ min room (l1 + l2) := le_min hcond.1.le (by linarith [hcond.2])
    refine ⟨le_min hca h1, le_min ?_ h2, min_le_right _ _, min_le_right _ _, rfl⟩
    have := min_le_left (min room (l1 + l2)) l1
    linarith
  · dsimp only
    have hca : 0 ≤ min room (l1 + l2) := le_min hcond.1.le (by linarith [hcond.2])
    refine ⟨le_min ?_ h1, le_min hca h2, min_le_right _ _, min_le_right _ _, ?_⟩
    · have := min_le_left (min room (l1 + l2)) l2
      linarith
    · ring
  · exact ⟨le_rfl, le_rfl, h1, h2, by norm_num⟩
set_option maxHeartbeats 1000000 in
/-- Per-field bounds for the Standard strategy (non-negative taxable/Roth
balances, RMDs within the pretax balances): every withdrawal and
conversion is non-negative, taxable/Roth withdrawals are capped by their
balances, pretax withdrawals by the balance net of the RMD, and each
conversion by what is left of that pretax pool. -/
theorem Standard_execute_bounds (inputs : StrategyInputs) (bal : AccountBalances)
    (inc : IncomeSources) (infl : ℚ) (tb : List (ℤ × ℚ)) (brs : List (ℚ × ℚ)) (sd : ℚ)
    (ht : 0 ≤ bal.b_taxable) (hr1 : 0 ≤ bal.b_roth_p1) (hr2 : 0 ≤ bal.b_roth_p2)
    (hp1 : inc.rmd_p1 ≤ bal.b_pretax_p1) (hp2 : inc.rmd_p2 ≤ bal.b_pretax_p2) :
    0 ≤ (Standard_execute inputs bal inc infl tb brs sd).wd_pretax_p1 ∧
    0 ≤ (Standard_execute inputs bal inc infl tb brs sd).wd_pretax_p2 ∧
    0 ≤ (Standard_execute inputs bal inc infl tb brs sd).wd_taxable ∧
    0 ≤ (Standard_execute inputs bal inc infl tb brs sd).wd_roth_p1 ∧
    0 ≤ (Standard_execute inputs bal inc infl tb brs sd).wd_roth_p2 ∧
    0 ≤ (Standard_execute inputs bal inc infl tb brs sd).conv_p1 ∧
    0 ≤ (Standard_execute inputs bal inc infl tb brs sd).conv_p2 ∧
    0 ≤ (Standard_execute inputs bal inc infl tb brs sd).roth_conversion ∧
    (Standard_execute inputs bal inc infl tb brs sd).wd_taxable ≤ bal.b_taxable ∧
    (Standard_execute inputs bal inc infl tb brs sd).wd_roth_p1 ≤ bal.b_roth_p1 ∧
    (Standard_execute inputs bal inc infl tb brs sd).wd_roth_p2 ≤ bal.b_roth_p2 ∧
    (Standard_execute inputs bal inc infl tb brs sd).wd_pretax_p1 ≤
      bal.b_pretax_p1 - inc.rmd_p1 ∧
    (Standard_execute inputs bal inc infl tb brs sd).wd_pretax_p2 ≤
      bal.b_pretax_p2 - inc.rmd_p2 ∧
    (Standard_execute inputs bal inc infl tb brs sd).conv_p1 ≤
      bal.b_pretax_p1 - inc.rmd_p1 -
        (Standard_execute inputs bal inc infl tb brs sd).wd_pretax_p1 ∧
    (Standard_execute inputs bal inc infl tb brs sd).conv_p2 ≤
      bal.b_pretax_p2 - inc.rmd_p2 -
        (Standard_execute inputs bal inc infl tb brs sd).wd_pretax_p2 := by
  unfold Standard_execute
  dsimp only
  set s0 := inputs.spend_goal + inputs.previous_year_taxes -
      (inc.emp_p1 + inc.emp_p2 + inc.ss_total + inc.pens_total + (inc.rmd_p1 + inc.rmd_p2))
    with hs0def
  set a1 := (0 : ℚ) ⊔ (bal.b_pretax_p1 - inc.rmd_p1) with ha1def
  set a2 := (0 : ℚ) ⊔ (bal.b_pretax_p2 - inc.rmd_p2) with ha2def
  have ha1v : a1 = bal.b_pretax_p1 - inc.rmd_p1 := by
    rw [ha1def]; exact max_eq_right (by linarith)
  have ha2v : a2 = bal.b_pretax_p2 - inc.rmd_p2 := by
    rw [ha2def]; exact max_eq_right (by linarith)
  have hwd :
      ∀ pre : ℚ × ℚ,
        (0 ≤ pre.1 ∧ 0 ≤ pre.2 ∧ pre.1 ≤ a1 ∧ pre.2 ≤ a2) →
        0 ≤ pre.1 ∧ 0 ≤ pre.2 ∧ pre.1 ≤ bal.b_pretax_p1 - inc.rmd_p1 ∧
          pre.2 ≤ bal.b_pretax_p2 - inc.rmd_p2 := by
    intro pre h
    exact ⟨h.1, h.2.1, ha1v ▸ h.2.2.1, ha2v ▸ h.2.2.2⟩
  have hpre : 0 ≤ (if s0 > 0 then
        if inputs.p1_age ≥ inputs.p2_age then
          (min s0 a1, gdraw (s0 - min s0 a1) a2)
        else (gdraw (s0 - min s0 a2) a1, min s0 a2)
      else ((0 : ℚ), (0 : ℚ))).1 ∧
      0 ≤ (if s0 > 0 then
        if inputs.p1_age ≥ inputs.p2_age then
          (min s0 a1, gdraw (s0 - min s0 a1) a2)
        else (gdraw (s0 - min s0 a2) a1, min s0 a2)
      else ((0 : ℚ), (0 : ℚ))).2 ∧
      (if s0 > 0 then
        if inputs.p1_age ≥ inputs.p2_age then
          (min s0 a1, gdraw (s0 - min s0 a1) a2)
        else (gdraw (s0 - min s0 a2) a1, min s0 a2)
      else ((0 : ℚ), (0 : ℚ))).1 ≤ a1 ∧
      (if s0 > 0 then
        if inputs.p1_age ≥ inputs.p2_age then
          (min s0 a1, gdraw (s0 - min s0 a1) a2)
        else (gdraw (s0 - min s0 a2) a1, min s0 a2)
      else ((0 : ℚ), (0 : ℚ))).2 ≤ a2 := by
    have ha1n : 0 ≤ a1 := le_max_left _ _
    have ha2n : 0 ≤ a2 := le_max_left _ _
    split_ifs with h0 hAge
    · exact ⟨le_min h0.le ha1n, gdraw_nonneg ha2n, min_le_right _ _, gdraw_le_cap ha2n⟩
    · exact ⟨gdraw_nonneg ha1n, le_min h0.le ha2n, gdraw_le_cap ha1n, min_le_right _ _⟩
    · exact ⟨le_rfl, le_rfl, ha1n, ha2n⟩
  obtain ⟨hw1, hw2, hb1, hb2⟩ := hpre
  have hconv := rothConversionStep_bounds inputs.p1_age inputs.p2_age
    (get_bracket_room
      (inc.emp_p1 + inc.emp_p2 + inc.ss_total + inc.pens_total + (inc.rmd_p1 + inc.rmd_p2) +
        (if s0 > 0 then
          if inputs.p1_age ≥ inputs.p2_age then
            (min s0 a1, gdraw (s0 - min s0 a1) a2)
          else (gdraw (s0 - min s0 a2) a1, min s0 a2)
        else ((0 : ℚ), (0 : ℚ))).1 +
        (if s0 > 0 then
          if inputs.p1_age ≥ inputs.p2_age then
            (min s0 a1, gdraw (s0 - min s0 a1) a2)
          else (gdraw (s0 - min s0 a2) a1, min s0 a2)
        else ((0 : ℚ), (0 : ℚ))).2)
      infl inputs.target_tax_bracket_rate brs sd)
    ((0 : ℚ) ⊔ (bal.b_pretax_p1 - inc.rmd_p1 -
      (if s0 > 0 then
        if inputs.p1_age ≥ inputs.p2_age then
          (min s0 a1, gdraw (s0 - min s0 a1) a2)
        else (gdraw (s0 - min s0 a2) a1, min s0 a2)
      else ((0 : ℚ), (0 : ℚ))).1))
    ((0 : ℚ) ⊔ (bal.b_pretax_p2 - inc.rmd_p2 -
      (if s0 > 0 then
        if inputs.p1_age ≥ inputs.p2_age then
          (min s0 a1, gdraw (s0 - min s0 a1) a2)
        else (gdraw (s0 - min s0 a2) a1, min s0 a2)
      else ((0 : ℚ), (0 : ℚ))).2))
    (le_max_left _ _) (le_max_left _ _)
  obtain ⟨hc1, hc2, hcb1, hcb2, hcsum⟩ := hconv
  have hl1 : (0 : ℚ) ⊔ (bal.b_pretax_p1 - inc.rmd_p1 -
      (if s0 > 0 then
        if inputs.p1_age ≥ inputs.p2_age then
          (min s0 a1, gdraw (s0 - min s0 a1) a2)
        else (gdraw (s0 - min s0 a2) a1, min s0 a2)
      else ((0 : ℚ), (0 : ℚ))).1) = bal.b_pretax_p1 - inc.rmd_p1 -
      (if s0 > 0 then
        if inputs.p1_age ≥ inputs.p2_age then
          (min s0 a1, gdraw (s0 - min s0 a1) a2)
        else (gdraw (s0 - min s0 a2) a1, min s0 a2)
      else ((0 : ℚ), (0 : ℚ))).1 :=
    max_eq_right (by rw [← ha1v]; linarith)
  have hl2 : (0 : ℚ) ⊔ (bal.b_pretax_p2 - inc.rmd_p2 -
      (if s0 > 0 then
        if inputs.p1_age ≥ inputs.p2_age then
          (min s0 a1, gdraw (s0 - min s0 a1) a2)
        else (gdraw (s0 - min s0 a2) a1, min s0 a2)
      else ((0 : ℚ), (0 : ℚ))).2) = bal.b_pretax_p2 - inc.rmd_p2 -
      (if s0 > 0 then
        if inputs.p1_age ≥ inputs.p2_age then
          (min s0 a1, gdraw (s0 - min s0 a1) a2)
        else (gdraw (s0 - min s0 a2) a1, min s0 a2)
      else ((0 : ℚ), (0 : ℚ))).2 :=
    max_eq_right (by rw [← ha2v]; linarith)
  refine ⟨hw1, hw2, ?_, ?_, ?_, hc1, hc2, by rw [hcsum]; linarith, ?_, ?_, ?_,
    hb1.trans (le_of_eq ha1v), hb2.trans (le_of_eq ha2v), ?_, ?_⟩
  · split_ifs <;> first | exact gdraw_nonneg ht | exact le_rfl
  · split_ifs <;> first | exact gdraw_nonneg hr1 | exact le_rfl
  · split_ifs <;> first | exact gdraw_nonneg hr2 | exact le_rfl
  · split_ifs <;> first | exact gdraw_le_cap ht | exact ht
  · split_ifs <;> first | exact gdraw_le_cap hr1 | exact hr1
  · split_ifs <;> first | exact gdraw_le_cap hr2 | exact hr2
  · exact hcb1.trans (le_of_eq hl1)
  · exact hcb2.trans (le_of_eq hl2)
set_option maxHeartbeats 1000000 in
/-- Per-field bounds for the TaxableFirst strategy, under the same
hypotheses as for Standard. -/
theorem TaxableFirst_execute_bounds (inputs : StrategyInputs) (bal : AccountBalances)
    (inc : IncomeSources) (infl : ℚ) (tb : List (ℤ × ℚ)) (brs : List (ℚ × ℚ)) (sd : ℚ)
    (ht : 0 ≤ bal.b_taxable) (hr1 : 0 ≤ bal.b_roth_p1) (hr2 : 0 ≤ bal.b_roth_p2)
    (hp1 : inc.rmd_p1 ≤ bal.b_pretax_p1) (hp2 : inc.rmd_p2 ≤ bal.b_pretax_p2) :
    0 ≤ (TaxableFirst_execute inputs bal inc infl tb brs sd).wd_pretax_p1 ∧
    0 ≤ (TaxableFirst_execute inputs bal inc infl tb brs sd).wd_pretax_p2 ∧
    0 ≤ (TaxableFirst_execute inputs bal inc infl tb brs sd).wd_taxable ∧
    0 ≤ (TaxableFirst_execute inputs bal inc infl tb brs sd).wd_roth_p1 ∧
    0 ≤ (TaxableFirst_execute inputs bal inc infl tb brs sd).wd_roth_p2 ∧
    0 ≤ (TaxableFirst_execute inputs bal inc infl tb brs sd).conv_p1 ∧
    0 ≤ (TaxableFirst_execute inputs bal inc infl tb brs sd).conv_p2 ∧
    0 ≤ (TaxableFirst_execute inputs bal inc infl tb brs sd).roth_conversion ∧
    (TaxableFirst_execute inputs bal inc infl tb brs sd).wd_taxable ≤ bal.b_taxable ∧
    (TaxableFirst_execute inputs bal inc infl tb brs sd).wd_roth_p1 ≤ bal.b_roth_p1 ∧
    (TaxableFirst_execute inputs bal inc infl tb brs sd).wd_roth_p2 ≤ bal.b_roth_p2 ∧
    (TaxableFirst_execute inputs bal inc infl tb brs sd).wd_pretax_p1 ≤
      bal.b_pretax_p1 - inc.rmd_p1 ∧
    (TaxableFirst_execute inputs bal inc infl tb brs sd).wd_pretax_p2 ≤
      bal.b_pretax_p2 - inc.rmd_p2 ∧
    (TaxableFirst_execute inputs bal inc infl tb brs sd).conv_p1 ≤
      bal.b_pretax_p1 - inc.rmd_p1 -
        (TaxableFirst_execute inputs bal inc infl tb brs sd).wd_pretax_p1 ∧
    (TaxableFirst_execute inputs bal inc infl tb brs sd).conv_p2 ≤
      bal.b_pretax_p2 - inc.rmd_p2 -
        (TaxableFirst_execute inputs bal inc infl tb brs sd).wd_pretax_p2 := by
  unfold TaxableFirst_execute
  dsimp only
  set m0 := (0 : ℚ) ⊔ (inputs.spend_goal + inputs.previous_year_taxes -
      (inc.emp_p1 + inc.emp_p2 + inc.ss_total + inc.pens_total + (inc.rmd_p1 + inc.rmd_p2)))
    with hm0def
  set a1 := (0 : ℚ) ⊔ (bal.b_pretax_p1 - inc.rmd_p1) with ha1def
  set a2 := (0 : ℚ) ⊔ (bal.b_pretax_p2 - inc.rmd_p2) with ha2def
  have hm0 : 0 ≤ m0 := le_max_left _ _
  have ha1n : 0 ≤ a1 := le_max_left _ _
  have ha2n : 0 ≤ a2 := le_max_left _ _
  have ha1v : a1 = bal.b_pretax_p1 - inc.rmd_p1 := by
    rw [ha1def]; exact max_eq_right (by linarith)
  have ha2v : a2 = bal.b_pretax_p2 - inc.rmd_p2 := by
    rw [ha2def]; exact max_eq_right (by linarith)
  set w1 := gdraw m0 bal.b_taxable with hw1def
  set r1v := m0 - w1 with hr1vdef
  set w2 := gdraw r1v bal.b_roth_p1 with hw2def
  set r2v := r1v - w2 with hr2vdef
  set w3 := (if r1v > 0 then gdraw r2v bal.b_roth_p2 else 0) with hw3def
  set r3v := r2v - w3 with hr3vdef
  have hr1vn : 0 ≤ r1v := by
    rw [hr1vdef, hw1def]; linarith [gdraw_le_shortfall (c := bal.b_taxable) hm0]
  have hr2vn : 0 ≤ r2v := by
    rw [hr2vdef, hw2def]; linarith [gdraw_le_shortfall (c := bal.b_roth_p1) hr1vn]
  have hw3n : 0 ≤ w3 := by
    rw [hw3def]; split_ifs
    · exact gdraw_nonneg hr2
    · exact le_rfl
  have hw3le : w3 ≤ r2v := by
    rw [hw3def]; split_ifs
    · exact gdraw_le_shortfall hr2vn
    · exact hr2vn
  have hr3vn : 0 ≤ r3v := by rw [hr3vdef]; linarith
  set pre := (if r3v > 0 then
      if inputs.p1_age ≥ inputs.p2_age then
        (min r3v a1, gdraw (r3v - min r3v a1) a2)
      else (gdraw (r3v - min r3v a2) a1, min r3v a2)
    else ((0 : ℚ), (0 : ℚ))) with hpredef
  have hpre : 0 ≤ pre.1 ∧ 0 ≤ pre.2 ∧ pre.1 ≤ a1 ∧ pre.2 ≤ a2 := by
    rw [hpredef]; split_ifs with h0 hAge
    · exact ⟨le_min h0.le ha1n, gdraw_nonneg ha2n, min_le_right _ _, gdraw_le_cap ha2n⟩
    · exact ⟨gdraw_nonneg ha1n, le_min h0.le ha2n, gdraw_le_cap ha1n, min_le_right _ _⟩
    · exact ⟨le_rfl, le_rfl, ha1n, ha2n⟩
  obtain ⟨hw1n, hw2n, hb1, hb2⟩ := hpre
  have hconv := rothConversionStep_bounds inputs.p1_age inputs.p2_age
    (get_bracket_room
      (inc.emp_p1 + inc.emp_p2 + inc.ss_total + inc.pens_total + (inc.rmd_p1 + inc.rmd_p2) +
        pre.1 + pre.2)
      infl inputs.target_tax_bracket_rate brs sd)
    ((0 : ℚ) ⊔ (bal.b_pretax_p1 - inc.rmd_p1 - pre.1))
    ((0 : ℚ) ⊔ (bal.b_pretax_p2 - inc.rmd_p2 - pre.2))
    (le_max_left _ _) (le_max_left _ _)
  obtain ⟨hc1, hc2, hcb1, hcb2, hcsum⟩ := hconv
  have hl1 : (0 : ℚ) ⊔ (bal.b_pretax_p1 - inc.rmd_p1 - pre.1) =
      bal.b_pretax_p1 - inc.rmd_p1 - pre.1 :=
    max_eq_right (by rw [← ha1v]; linarith)
  have hl2 : (0 : ℚ) ⊔ (bal.b_pretax_p2 - inc.rmd_p2 - pre.2) =
      bal.b_pretax_p2 - inc.rmd_p2 - pre.2 :=
    max_eq_right (by rw [← ha2v]; linarith)
  refine ⟨hw1n, hw2n, ?_, ?_, ?_, hc1, hc2, by rw [hcsum]; linarith, ?_, ?_, ?_,
    hb1.trans (le_of_eq ha1v), hb2.trans (le_of_eq ha2v),
    hcb1.trans (le_of_eq hl1), hcb2.trans (le_of_eq hl2)⟩
  · rw [hw1def]; exact gdraw_nonneg ht
  · rw [hw2def]; exact gdraw_nonneg hr1
  · exact hw3n
  · rw [hw1def]; exact gdraw_le_cap ht
  · rw [hw2def]; exact gdraw_le_cap hr1
  · rw [hw3def]; split_ifs
    · exact gdraw_le_cap hr2
    · exact hr2

/-- C8 (amended): for either strategy, on inputs whose taxable and Roth
balances are non-negative and whose RMDs do not exceed the pretax
balances, every returned withdrawal and conversion amount is
non-negative; the taxable and Roth withdrawals never exceed the
corresponding balances; each pretax withdrawal never exceeds that
person's pretax balance net of their RMD; and each conversion never
exceeds that pretax balance net of RMD and the already-planned pretax
withdrawal (with `roth_conversion` their sum, hence non-negative). -/
theorem strategy_withdrawal_bounds (name : StrategyName) (inputs : StrategyInputs)
    (bal : AccountBalances) (inc : IncomeSources) (infl : ℚ) (tb : List (ℤ × ℚ))
    (brs : List (ℚ × ℚ)) (sd : ℚ)
    (ht : 0 ≤ bal.b_taxable) (hr1 : 0 ≤ bal.b_roth_p1) (hr2 : 0 ≤ bal.b_roth_p2)
    (hp1 : inc.rmd_p1 ≤ bal.b_pretax_p1) (hp2 : inc.rmd_p2 ≤ bal.b_pretax_p2) :
    0 ≤ (strategyExecute name inputs bal inc infl tb brs sd).wd_pretax_p1 ∧
    0 ≤ (strategyExecute name inputs bal inc infl tb brs sd).wd_pretax_p2 ∧
    0 ≤ (strategyExecute name inputs bal inc infl tb brs sd).wd_taxable ∧
    0 ≤ (strategyExecute name inputs bal inc infl tb brs sd).wd_roth_p1 ∧
    0 ≤ (strategyExecute name inputs bal inc infl tb brs sd).wd_roth_p2 ∧
    0 ≤ (strategyExecute name inputs bal inc infl tb brs sd).conv_p1 ∧
    0 ≤ (strategyExecute name inputs bal inc infl tb brs sd).conv_p2 ∧
    0 ≤ (strategyExecute name inputs bal inc infl tb brs sd).roth_conversion ∧
    (strategyExecute name inputs bal inc infl tb brs sd).wd_taxable ≤ bal.b_taxable ∧
    (strategyExecute name inputs bal inc infl tb brs sd).wd_roth_p1 ≤ bal.b_roth_p1 ∧
    (strategyExecute name inputs bal inc infl tb brs sd).wd_roth_p2 ≤ bal.b_roth_p2 ∧
    (strategyExecute name inputs bal inc infl tb brs sd).wd_pretax_p1 ≤
      bal.b_pretax_p1 - inc.rmd_p1 ∧
    (strategyExecute name inputs bal inc infl tb brs sd).wd_pretax_p2 ≤
      bal.b_pretax_p2 - inc.rmd_p2 ∧
    (strategyExecute name inputs bal inc infl tb brs sd).conv_p1 ≤
      bal.b_pretax_p1 - inc.rmd_p1 -
        (strategyExecute name inputs bal inc infl tb brs sd).wd_pretax_p1 ∧
    (strategyExecute name inputs bal inc infl tb brs sd).conv_p2 ≤
      bal.b_pretax_p2 - inc.rmd_p2 -
        (strategyExecute name inputs bal inc infl tb brs sd).wd_pretax_p2 := by
  cases name with
  | standard => exact Standard_execute_bounds inputs bal inc infl tb brs sd ht hr1 hr2 hp1 hp2
  | taxable_first =>
    exact TaxableFirst_execute_bounds inputs bal inc infl tb brs sd ht hr1 hr2 hp1 hp2

/-- Witness for the amended C8 at a concrete input (Standard strategy,
spend 50000, $40k taxable, $100k/$80k pretax with $5k/$4k RMDs, $20k/$10k
Roth). -/
theorem strategy_withdrawal_bounds_witness :
    0 ≤ (strategyExecute .standard ⟨70, 68, 50000, 0, 6/25⟩ ⟨40000, 100000, 80000, 20000, 10000⟩
        ⟨0, 0, 0, 0, 5000, 4000⟩ 1 rmd_table brackets_ordinary std_deduction).wd_pretax_p1 ∧
    (strategyExecute .standard ⟨70, 68, 50000, 0, 6/25⟩ ⟨40000, 100000, 80000, 20000, 10000⟩
        ⟨0, 0, 0, 0, 5000, 4000⟩ 1 rmd_table brackets_ordinary std_deduction).wd_taxable ≤
      40000 :=
  ⟨(strategy_withdrawal_bounds .standard ⟨70, 68, 50000, 0, 6/25⟩
      ⟨40000, 100000, 80000, 20000, 10000⟩ ⟨0, 0, 0, 0, 5000, 4000⟩ 1 rmd_table
      brackets_ordinary std_deduction (by decide) (by decide) (by decide) (by decide)
      (by decide)).1,
   (strategy_withdrawal_bounds .standard ⟨70, 68, 50000, 0, 6/25⟩
      ⟨40000, 100000, 80000, 20000, 10000⟩ ⟨0, 0, 0, 0, 5000, 4000⟩ 1 rmd_table
      brackets_ordinary std_deduction (by decide) (by decide) (by decide) (by decide)
      (by decide)).2.2.2.2.2.2.2.2.1⟩
/-- One step of the annuity balance recurrence. -/
theorem annuitySeq_succ (c : ℚ) (m : ℕ) :
    annuitySeq c (m + 1) = (1 + annuitySeq c m) / (1 + c) := rfl

/-- The annuity balance sequence is non-negative for non-negative rates. -/
theorem annuitySeq_nonneg {c : ℚ} (hc : 0 ≤ c) (m : ℕ) : 0 ≤ annuitySeq c m := by
  induction m with
  | zero => exact le_rfl
  | succ m ih =>
    rw [annuitySeq_succ]
    positivity

/-- The annuity balance sequence is positive away from 0. -/
theorem annuitySeq_pos {c : ℚ} (hc : 0 ≤ c) (m : ℕ) : 0 < annuitySeq c (m + 1) := by
  rw [annuitySeq_succ]
  have := annuitySeq_nonneg hc m
  positivity

/-- The defining recurrence, multiplied out. -/
theorem annuitySeq_rec {c : ℚ} (hc : 0 ≤ c) (m : ℕ) :
    annuitySeq c (m + 1) * (1 + c) = 1 + annuitySeq c m := by
  rw [annuitySeq_succ]
  field_simp

/-- Closed form of the annuity balance sequence for a positive rate:
`annuitySeq c m = ((1+c)^m - 1) / (c (1+c)^m)`. -/
theorem annuitySeq_closed {c : ℚ} (hc : 0 < c) (m : ℕ) :
    annuitySeq c m = ((1 + c) ^ m - 1) / (c * (1 + c) ^ m) := by
  induction m with
  | zero => simp [annuitySeq]
  | succ m ih =>
    have h1c : (0 : ℚ) < 1 + c := by linarith
    have hpow : (0 : ℚ) < (1 + c) ^ m := pow_pos h1c m
    rw [annuitySeq_succ, ih, pow_succ]
    field_simp
    ring

/-- At rate zero the annuity balance sequence is just the month count. -/
theorem annuitySeq_zero_rate (m : ℕ) : annuitySeq 0 m = m := by
  induction m with
  | zero => simp [annuitySeq]
  | succ m ih => rw [annuitySeq_succ, ih]; push_cast; ring
/-- `payOneMonth` leaves the rate, term and payment untouched. -/
theorem payOneMonth_fields (m : MortgageState) :
    (payOneMonth m).annual_interest_rate = m.annual_interest_rate ∧
    (payOneMonth m).months_remaining = m.months_remaining ∧
    (payOneMonth m).monthly_payment = m.monthly_payment :=
  ⟨rfl, rfl, rfl⟩

/-- On the exact annuity trajectory one month of payments moves the
balance from `P * annuitySeq c (k+1)` to `P * annuitySeq c k` (the
overpayment cap never fires because the post-payment balance is
non-negative). -/
theorem payOneMonth_annuity (m : MortgageState) (P : ℚ) (k : ℕ)
    (hP : 0 < P)
    (hc : 0 ≤ m.annual_interest_rate)
    (hpay : m.monthly_payment = P)
    (hprin : m.principal_remaining = P * annuitySeq (m.annual_interest_rate / 12) (k + 1)) :
    (payOneMonth m).principal_remaining =
      P * annuitySeq (m.annual_interest_rate / 12) k := by
  set c := m.annual_interest_rate / 12 with hcdef
  have hc12 : 0 ≤ c := by rw [hcdef]; positivity
  have hrec := annuitySeq_rec hc12 k
  have hk := annuitySeq_nonneg hc12 k
  have e2 : P * (annuitySeq c (k + 1) * (1 + c)) = P * (1 + annuitySeq c k) := by
    rw [hrec]
  have hcap : ¬ (m.monthly_payment - m.principal_remaining * c > m.principal_remaining) := by
    rw [hpay, hprin]
    intro h
    nlinarith [e2, mul_nonneg hP.le hk]
  unfold payOneMonth
  dsimp only
  rw [← hcdef, if_neg hcap, hpay, hprin]
  have hval : P * annuitySeq c (k + 1) - (P - P * annuitySeq c (k + 1) * c) =
      P * annuitySeq c k := by
    linear_combination e2
  rw [hval]
  exact max_eq_right (by positivity)
/-- Iterating the monthly loop along the annuity trajectory: after `j` of
`k` scheduled months the balance is `P * annuitySeq c (k - j)`, and the
rate, term counter and payment survive untouched (the loop breaks exactly
when the balance reaches 0). -/
theorem payMonths_annuity (j : ℕ) (m : MortgageState) (P : ℚ) (k : ℕ)
    (hP : 0 < P) (hc : 0 ≤ m.annual_interest_rate)
    (hpay : m.monthly_payment = P)
    (hprin : m.principal_remaining = P * annuitySeq (m.annual_interest_rate / 12) k) :
    (payMonths j m).principal_remaining =
      P * annuitySeq (m.annual_interest_rate / 12) (k - j) ∧
    (payMonths j m).annual_interest_rate = m.annual_interest_rate ∧
    (payMonths j m).months_remaining = m.months_remaining ∧
    (payMonths j m).monthly_payment = P := by
  induction j generalizing m k with
  | zero =>
    exact ⟨by rw [payMonths, hprin, Nat.sub_zero], rfl, rfl, hpay⟩
  | succ j ih =>
    cases k with
    | zero =>
      have hz : m.principal_remaining ≤ 0 := by
        rw [hprin]; simp [annuitySeq]
      have hstep : payMonths (j + 1) m =
          if m.principal_remaining ≤ 0 ∨ m.monthly_payment ≤ 0 then m
          else payMonths j (payOneMonth m) := rfl
      have hbreak : payMonths (j + 1) m = m := by
        rw [hstep, if_pos (Or.inl hz)]
      rw [hbreak]
      exact ⟨by rw [hprin, Nat.zero_sub], rfl, rfl, hpay⟩
    | succ k =>
      have hcq : (0 : ℚ) ≤ m.annual_interest_rate / 12 := by positivity
      have hpos : 0 < m.principal_remaining := by
        rw [hprin]; exact mul_pos hP (annuitySeq_pos hcq k)
      have hnobreak : ¬ (m.principal_remaining ≤ 0 ∨ m.monthly_payment ≤ 0) := by
        push_neg
        exact ⟨hpos, by rw [hpay]; exact hP⟩
      have hstep : payMonths (j + 1) m =
          if m.principal_remaining ≤ 0 ∨ m.monthly_payment ≤ 0 then m
          else payMonths j (payOneMonth m) := rfl
      rw [hstep, if_neg hnobreak]
      have hnext := payOneMonth_annuity m P k hP hc hpay hprin
      have ⟨hr', hm', hp'⟩ := payOneMonth_fields m
      have := ih (payOneMonth m) k (hr' ▸ hc) (hp' ▸ hpay) (by rw [hnext, hr'])
      rw [hr', hm'] at this
      rw [Nat.succ_sub_succ]
      exact this
/-- Re-deriving the level payment from an on-trajectory balance returns
the same payment: `_calculate_monthly_payment` is invariant along the
annuity trajectory (positive rate). -/
theorem recompute_annuity (P r : ℚ) (m' : ℕ) (hP : 0 < P) (hr : 0 < r) (hm : 0 < m') :
    calcMonthlyPayment (P * annuitySeq (r / 12) m') r m' = P := by
  obtain ⟨k, rfl⟩ : ∃ k, m' = k + 1 := ⟨m' - 1, by omega⟩
  have hc : (0 : ℚ) < r / 12 := by positivity
  have hB : 0 < P * annuitySeq (r / 12) (k + 1) := mul_pos hP (annuitySeq_pos hc.le k)
  have h1c : (0 : ℚ) < 1 + r / 12 := by linarith
  have hpow : (0 : ℚ) < (1 + r / 12) ^ (k + 1) := pow_pos h1c _
  have hpow1 : (1 : ℚ) < (1 + r / 12) ^ (k + 1) :=
    one_lt_pow (by linarith) (Nat.succ_ne_zero k)
  unfold calcMonthlyPayment
  rw [if_neg (by push_neg; exact ⟨hB, Nat.succ_ne_zero k⟩), if_neg hc.ne']
  rw [annuitySeq_closed hc]
  set c := r / 12 with hcdef
  set Q := (1 + c) ^ (k + 1) with hQdef
  have hQ0 : Q ≠ 0 := hpow.ne'
  have hQ1 : Q - 1 ≠ 0 := by
    have : (1 : ℚ) < Q := hpow1
    intro h; rw [sub_eq_zero] at h; rw [h] at this; exact lt_irrefl 1 this
  field_simp

/-- The constructor's level payment is positive and exactly retires the
principal over the annuity trajectory: `P * annuitySeq (r/12) n = L`. -/
theorem initPayment_annuity (L r : ℚ) (n : ℕ) (hL : 0 < L) (hr : 0 ≤ r) (hn : 0 < n) :
    calcMonthlyPayment L r n * annuitySeq (r / 12) n = L ∧
      0 < calcMonthlyPayment L r n := by
  unfold calcMonthlyPayment
  rw [if_neg (by push_neg; exact ⟨hL, hn.ne'⟩)]
  rcases eq_or_lt_of_le hr with hr0 | hr0
  · rw [if_pos (by rw [← hr0]; norm_num)]
    have hz : r / 12 = 0 := by rw [← hr0]; norm_num
    rw [hz, annuitySeq_zero_rate]
    constructor
    · field_simp
    · positivity
  · have hc : (0 : ℚ) < r / 12 := by positivity
    have h1c : (0 : ℚ) < 1 + r / 12 := by linarith
    have hpow : (0 : ℚ) < (1 + r / 12) ^ n := pow_pos h1c _
    have hpow1 : (1 : ℚ) < (1 + r / 12) ^ n := one_lt_pow (by linarith) hn.ne'
    rw [if_neg hc.ne']
    constructor
    · rw [annuitySeq_closed hc]
      set c := r / 12 with hcdef
      set Q := (1 + c) ^ n with hQdef
      have hQ0 : Q ≠ 0 := hpow.ne'
      have hQ1 : Q - 1 ≠ 0 := by
        have : (1 : ℚ) < Q := hpow1
        intro h; rw [sub_eq_zero] at h; rw [h] at this; exact lt_irrefl 1 this
      field_simp
    · have hnum : (0 : ℚ) < r / 12 * (1 + r / 12) ^ n := by positivity
      have hden : (0 : ℚ) < (1 + r / 12) ^ n - 1 := by linarith
      positivity
set_option maxHeartbeats 1000000 in
/-- One engine year (`make_payment(12)`) along the annuity trajectory:
with `M ≥ 12` scheduled months and balance `P * annuitySeq c M`, the year
ends with balance `P * annuitySeq c (M - 12)`, term `M - 12`, the same
rate, and (while months remain) the same level payment. -/
theorem make_payment_annuity (m : MortgageState) (P : ℚ) (M : ℕ)
    (hP : 0 < P) (hc : 0 ≤ m.annual_interest_rate)
    (hpay : m.monthly_payment = P)
    (hmonths : m.months_remaining = M) (hM : 12 ≤ M)
    (hprin : m.principal_remaining = P * annuitySeq (m.annual_interest_rate / 12) M) :
    (m.make_payment 12).principal_remaining =
      P * annuitySeq (m.annual_interest_rate / 12) (M - 12) ∧
    (m.make_payment 12).annual_interest_rate = m.annual_interest_rate ∧
    (m.make_payment 12).months_remaining = M - 12 ∧
    (12 < M → (m.make_payment 12).monthly_payment = P) := by
  obtain ⟨hprin2, hrate2, hmonths2, hpay2⟩ :=
    payMonths_annuity 12
      { m with interest_paid_this_year := 0, principal_paid_this_year := 0 } P M hP hc hpay hprin
  dsimp only at hprin2 hrate2 hmonths2 hpay2
  unfold MortgageState.make_payment
  dsimp only
  by_cases hpos :
      (payMonths 12
        { m with interest_paid_this_year := 0, principal_paid_this_year := 0
          }).principal_remaining > 0
  · rw [if_pos hpos]
    dsimp only
    have hM12 : 12 < M := by
      by_contra hle
      have hMeq : M = 12 := le_antisymm (not_lt.mp hle) hM
      rw [hprin2, hMeq, Nat.sub_self] at hpos
      simp [annuitySeq] at hpos
    refine ⟨by rw [hprin2], hrate2, by rw [hmonths2, hmonths], fun _ => ?_⟩
    have hsub : m.months_remaining - 12 = M - 12 := by rw [hmonths]
    rw [hmonths2, hrate2, hprin2, hsub]
    split_ifs with hrec
    · exact recompute_annuity P m.annual_interest_rate (M - 12) hP hrec.2 hrec.1
    · exact hpay2
  · rw [if_neg hpos]
    dsimp only
    have hMeq : M = 12 := by
      by_contra hne
      have hM12 : 12 < M := lt_of_le_of_ne hM (Ne.symm hne)
      apply hpos
      rw [hprin2]
      have hcq : (0 : ℚ) ≤ m.annual_interest_rate / 12 := by positivity
      obtain ⟨k, hk⟩ : ∃ k, M - 12 = k + 1 := ⟨M - 12 - 1, by omega⟩
      rw [hk]
      exact mul_pos hP (annuitySeq_pos hcq k)
    refine ⟨by rw [hprin2], hrate2, by omega, fun h => absurd hMeq (by omega)⟩
/-- `Rat.floor` of a natural-number literal. -/
theorem ratFloor_natCast (k : ℕ) : Rat.floor ((k : ℚ)) = k := by
  rw [show Rat.floor ((k : ℚ)) = ⌊(k : ℚ)⌋ from (Rat.floor_def' _).trans Rat.floor_def.symm,
    Int.floor_natCast]

/-- `pyTrunc` of a natural-number literal. -/
theorem pyTrunc_natCast (k : ℕ) : pyTrunc ((k : ℚ)) = k := by
  unfold pyTrunc
  rw [if_pos (by positivity), ratFloor_natCast]

set_option maxHeartbeats 1600000 in
/-- C6: full amortization.  For any principal > 0, rate ≥ 0 and positive
whole-year term `y`, advancing the mortgage by `make_payment(12)` once per
year for `y` years drives the remaining principal to exactly 0. -/
theorem mortgage_full_amortization (L r : ℚ) (y : ℕ)
    (hL : 0 < L) (hr : 0 ≤ r) (hy : 0 < y) :
    ((fun mo : MortgageState => mo.make_payment 12)^[y]
      (Mortgage.init L r (y : ℚ))).principal_remaining = 0 := by
  have hip : (Mortgage.init L r (y : ℚ)).principal_remaining = L := by
    simp [Mortgage.init, max_eq_right hL.le]
  have hirate : (Mortgage.init L r (y : ℚ)).annual_interest_rate = r := by
    simp [Mortgage.init, max_eq_right hr]
  have hcast : max 0 ((y : ℚ)) * 12 = ((12 * y : ℕ) : ℚ) := by
    rw [max_eq_right (by positivity)]
    push_cast
    ring
  have himonths : (Mortgage.init L r (y : ℚ)).months_remaining = 12 * y := by
    simp only [Mortgage.init, hcast, pyTrunc_natCast]
    exact Int.toNat_natCast _
  have hipay : (Mortgage.init L r (y : ℚ)).monthly_payment =
      calcMonthlyPayment L r (12 * y) := by
    simp only [Mortgage.init, hcast, pyTrunc_natCast, Int.toNat_natCast,
      max_eq_right hL.le, max_eq_right hr]
  obtain ⟨hPA, hPpos⟩ := initPayment_annuity L r (12 * y) hL hr (by positivity)
  have inv : ∀ k, k ≤ y →
      ((fun mo : MortgageState => mo.make_payment 12)^[k]
          (Mortgage.init L r (y : ℚ))).annual_interest_rate = r ∧
      ((fun mo : MortgageState => mo.make_payment 12)^[k]
          (Mortgage.init L r (y : ℚ))).months_remaining = 12 * y - 12 * k ∧
      ((fun mo : MortgageState => mo.make_payment 12)^[k]
          (Mortgage.init L r (y : ℚ))).principal_remaining =
        calcMonthlyPayment L r (12 * y) * annuitySeq (r / 12) (12 * y - 12 * k) ∧
      (k < y → ((fun mo : MortgageState => mo.make_payment 12)^[k]
          (Mortgage.init L r (y : ℚ))).monthly_payment =
        calcMonthlyPayment L r (12 * y)) := by
    intro k
    induction k with
    | zero =>
      intro _
      simp only [Function.iterate_zero, id_eq, Nat.mul_zero, Nat.sub_zero]
      exact ⟨hirate, himonths, by rw [hip, hPA], fun _ => hipay⟩
    | succ k ih =>
      intro hk1
      have hky : k < y := hk1
      obtain ⟨hr1, hm1, hp1, hpay1⟩ := ih hky.le
      have hM : 12 ≤ 12 * y - 12 * k := by omega
      have step := make_payment_annuity
        ((fun mo : MortgageState => mo.make_payment 12)^[k] (Mortgage.init L r (y : ℚ)))
        (calcMonthlyPayment L r (12 * y)) (12 * y - 12 * k)
        hPpos (by rw [hr1]; exact hr) (hpay1 hky) hm1 hM (by rw [hp1, hr1])
      rw [hr1] at step
      rw [Function.iterate_succ_apply']
      have hidx : 12 * y - 12 * k - 12 = 12 * y - 12 * (k + 1) := by omega
      refine ⟨?_, ?_, ?_, fun hk2 => ?_⟩
      · rw [step.2.1]
      · rw [step.2.2.1, hidx]
      · rw [step.1, hidx]
      · exact step.2.2.2 (by omega)
  have final := inv y le_rfl
  rw [final.2.2.1, Nat.sub_self]
  simp [annuitySeq]

/-- Witness for C6: a $1200 interest-free one-year mortgage reaches
principal 0 after its single year of payments. -/
theorem mortgage_full_amortization_witness :
    ((fun mo : MortgageState => mo.make_payment 12)^[1]
      (Mortgage.init 1200 0 ((1 : ℕ) : ℚ))).principal_remaining = 0 :=
  mortgage_full_amortization 1200 0 1 (by decide) (by decide) (by decide)
/-- The bracket walk gives 0 at or below the running lower limit. -/
theorem ordTaxLoop_zero (brs : List (ℚ × ℚ)) (x prev : ℚ) (h : x ≤ prev) :
    ordTaxLoop brs x prev = 0 := by
  cases brs with
  | nil => rfl
  | cons b rest =>
    obtain ⟨l, rate⟩ := b
    simp only [ordTaxLoop]
    rw [if_neg (not_lt.mpr h)]

/-- The bracket walk is non-negative on an ascending table. -/
theorem ordTaxLoop_nonneg (brs : List (ℚ × ℚ)) (x : ℚ) :
    ∀ prev, Asc prev brs → 0 ≤ ordTaxLoop brs x prev := by
  induction brs with
  | nil => intro prev _; exact le_rfl
  | cons b rest ih =>
    intro prev hasc
    obtain ⟨l, rate⟩ := b
    obtain ⟨hpl, hrate, hasc'⟩ := hasc
    simp only [ordTaxLoop]
    by_cases h : x > prev
    · rw [if_pos h]
      have h1 : prev ≤ min x l := le_min h.le hpl
      have h2 := ih l hasc'
      have h3 : 0 ≤ (min x l - prev) * rate := mul_nonneg (by linarith) hrate
      linarith
    · rw [if_neg h]

/-- The bracket walk is monotone in taxable income on an ascending table. -/
theorem ordTaxLoop_mono (brs : List (ℚ × ℚ)) (x x' : ℚ) (hxx : x ≤ x') :
    ∀ prev, Asc prev brs → ordTaxLoop brs x prev ≤ ordTaxLoop brs x' prev := by
  induction brs with
  | nil => intro prev _; exact le_rfl
  | cons b rest ih =>
    intro prev hasc
    obtain ⟨l, rate⟩ := b
    obtain ⟨hpl, hrate, hasc'⟩ := hasc
    simp only [ordTaxLoop]
    by_cases h : x > prev
    · have h' : x' > prev := lt_of_lt_of_le h hxx
      rw [if_pos h, if_pos h']
      have hmin : min x l ≤ min x' l := min_le_min hxx le_rfl
      have h2 : (min x l - prev) * rate ≤ (min x' l - prev) * rate :=
        mul_le_mul_of_nonneg_right (by linarith) hrate
      have h3 := ih l hasc'
      linarith
    · rw [if_neg h]
      by_cases h' : x' > prev
      · rw [if_pos h']
        have h1 : prev ≤ min x' l := le_min h'.le hpl
        have h2 : 0 ≤ (min x' l - prev) * rate := mul_nonneg (by linarith) hrate
        have h3 := ordTaxLoop_nonneg rest x' l hasc'
        linarith
      · rw [if_neg h']

/-- Upper bound: on an ascending table with rates at most `K`, the walk
taxes at most `K` per unit of income above the lower limit. -/
theorem ordTaxLoop_upper (brs : List (ℚ × ℚ)) (x : ℚ) (K : ℚ) (hK : 0 ≤ K) :
    ∀ prev, Asc prev brs → RatesLe K brs →
      ordTaxLoop brs x prev ≤ K * max 0 (x - prev) := by
  induction brs with
  | nil =>
    intro prev _ _
    show (0 : ℚ) ≤ K * max 0 (x - prev)
    exact mul_nonneg hK (le_max_left _ _)
  | cons b rest ih =>
    intro prev hasc hrates
    obtain ⟨l, rate⟩ := b
    obtain ⟨hpl, hrate, hasc'⟩ := hasc
    have hKr : rate ≤ K := hrates (l, rate) (List.mem_cons_self _ _)
    have hrates' : RatesLe K rest := fun p hp => hrates p (List.mem_cons_of_mem _ hp)
    simp only [ordTaxLoop]
    by_cases h : x > prev
    · rw [if_pos h]
      have h1 : prev ≤ min x l := le_min h.le hpl
      have h2 : (min x l - prev) * rate ≤ K * (min x l - prev) := by
        have hnn : (0 : ℚ) ≤ min x l - prev := by linarith
        have := mul_le_mul_of_nonneg_left hKr hnn
        linarith
      have h3 := ih l hasc' hrates'
      have h4 : K * max 0 (x - l) + K * (min x l - prev) ≤ K * max 0 (x - prev) := by
        rcases le_total x l with hxl | hxl
        · rw [min_eq_left hxl, max_eq_left (by linarith), max_eq_right (by linarith)]
          linarith
        · rw [min_eq_right hxl, max_eq_right (by linarith), max_eq_right (by linarith)]
          ring_nf
          linarith
      linarith
    · rw [if_neg h]
      exact mul_nonneg hK (le_max_left _ _)

/-- Lipschitz bound: on an ascending table with rates at most `K`, the
walk grows at most `K` per unit of extra income. -/
theorem ordTaxLoop_lipschitz (brs : List (ℚ × ℚ)) (x x' : ℚ) (K : ℚ)
    (hK : 0 ≤ K) (hxx : x ≤ x') :
    ∀ prev, Asc prev brs → RatesLe K brs →
      ordTaxLoop brs x' prev - ordTaxLoop brs x prev ≤ K * (x' - x) := by
  induction brs with
  | nil =>
    intro prev _ _
    show (0 : ℚ) - 0 ≤ K * (x' - x)
    have := mul_nonneg hK (by linarith : (0:ℚ) ≤ x' - x)
    linarith
  | cons b rest ih =>
    intro prev hasc hrates
    obtain ⟨l, rate⟩ := b
    obtain ⟨hpl, hrate, hasc'⟩ := hasc
    have hKr : rate ≤ K := hrates (l, rate) (List.mem_cons_self _ _)
    have hrates' : RatesLe K rest := fun p hp => hrates p (List.mem_cons_of_mem _ hp)
    simp only [ordTaxLoop]
    by_cases h : x > prev
    · have h' : x' > prev := lt_of_lt_of_le h hxx
      rw [if_pos h, if_pos h']
      rcases le_total x l with hxl | hxl
      · -- x within this bracket
        have hz : ordTaxLoop rest x l = 0 := ordTaxLoop_zero rest x l hxl
        have hup := ordTaxLoop_upper rest x' K hK l hasc' hrates'
        have hmm : x ≤ min x' l := le_min hxx hxl
        have h2 : (min x' l - min x l) * rate ≤ K * (min x' l - x) := by
          rw [min_eq_left hxl]
          have hnn : (0 : ℚ) ≤ min x' l - x := by linarith
          have := mul_le_mul_of_nonneg_left hKr hnn
          linarith
        have h4 : K * max 0 (x' - l) + K * (min x' l - x) ≤ K * (x' - x) := by
          rcases le_total x' l with h3 | h3
          · rw [min_eq_left h3, max_eq_left (by linarith)]
            linarith
          · rw [min_eq_right h3, max_eq_right (by linarith)]
            ring_nf
            linarith
        linarith
      · -- x beyond this bracket: bracket contributions equal, recurse
        have hmin : min x l = l := min_eq_right hxl
        have hmin' : min x' l = l := min_eq_right (le_trans hxl hxx)
        have h3 := ih l hasc' hrates'
        rw [hmin, hmin']
        linarith
    · rw [if_neg h]
      by_cases h' : x' > prev
      · rw [if_pos h']
        have hxp : x ≤ prev := not_lt.mp h
        have hup := ordTaxLoop_upper rest x' K hK l hasc' hrates'
        have h1 : prev ≤ min x' l := le_min h'.le hpl
        have h2 : (min x' l - prev) * rate ≤ K * (min x' l - prev) := by
          have hnn : (0 : ℚ) ≤ min x' l - prev := by linarith
          have := mul_le_mul_of_nonneg_left hKr hnn
          linarith
        have h4 : K * max 0 (x' - l) + K * (min x' l - prev) ≤ K * (x' - x) := by
          rcases le_total x' l with h3 | h3
          · rw [min_eq_left h3, max_eq_left (by linarith)]
            have h5 : K * (prev - x) ≥ 0 := mul_nonneg hK (by linarith)
            nlinarith
          · rw [min_eq_right h3, max_eq_right (by linarith)]
            have h5 : K * (prev - x) ≥ 0 := mul_nonneg hK (by linarith)
            nlinarith
        linarith
      · rw [if_neg h']
        have := mul_nonneg hK (by linarith : (0:ℚ) ≤ x' - x)
        linarith
/-- The stacking loop yields 0 when the band is empty. -/
theorem ltcgTaxLoop_band_zero (brs : List (ℚ × ℚ)) (fl ce : ℚ) (h : ce ≤ fl) :
    ltcgTaxLoop brs fl ce = 0 := by
  induction brs with
  | nil => rfl
  | cons b rest ih =>
    obtain ⟨l, rate⟩ := b
    simp only [ltcgTaxLoop]
    rw [if_neg (by intro hc; exact absurd hc.1 (not_lt.mpr h))]
    exact ih

/-- The capital-gains stacking loop computes the difference of the
cumulative bracket walk at the band's two endpoints. -/
theorem ltcgTaxLoop_eq_cum_sub (brs : List (ℚ × ℚ)) (ce : ℚ) :
    ∀ prev fl, Asc prev brs → prev ≤ fl → fl ≤ ce →
      ltcgTaxLoop brs fl ce = ordTaxLoop brs ce prev - ordTaxLoop brs fl prev := by
  induction brs with
  | nil => intro prev fl _ _ _; show (0:ℚ) = 0 - 0; ring
  | cons b rest ih =>
    intro prev fl hasc hpf hfc
    obtain ⟨l, rate⟩ := b
    obtain ⟨hpl, hrate, hasc'⟩ := hasc
    simp only [ltcgTaxLoop, ordTaxLoop]
    rcases eq_or_lt_of_le hfc with hce | hce
    · -- empty band: ce = fl
      subst hce
      rw [if_neg (by intro hc; exact absurd hc.1 (lt_irrefl _))]
      rw [ltcgTaxLoop_band_zero rest fl fl le_rfl]
      ring
    · -- ce > fl
      by_cases hfl : fl < l
      · rw [if_pos ⟨hce, hfl⟩]
        -- the floor contribution: cum at fl equals (fl - prev) * rate
        have hcumfl : (if fl > prev then (min fl l - prev) * rate + ordTaxLoop rest fl l else 0)
            = (fl - prev) * rate := by
          rcases eq_or_lt_of_le hpf with hp | hp
          · rw [if_neg (by rw [hp]; exact lt_irrefl _), ← hp]
            ring
          · rw [if_pos hp, min_eq_left hfl.le, ordTaxLoop_zero rest fl l hfl.le]
            ring
        by_cases hcl : min ce l ≥ ce
        · -- ce ≤ l: band fully inside this bracket
          rw [if_pos hcl]
          have hcel : ce ≤ l := by
            rcases le_total ce l with h1 | h1
            · exact h1
            · rw [min_eq_right h1] at hcl; linarith
          rw [if_pos (lt_of_le_of_lt hpf hce), min_eq_left hcel,
            ordTaxLoop_zero rest ce l hcel, hcumfl]
          ring
        · -- ce > l: bracket filled to l, recurse on the rest
          rw [if_neg hcl]
          have hlce : l < ce := by
            rcases le_total ce l with h1 | h1
            · rw [min_eq_left h1] at hcl; exact absurd le_rfl hcl
            · rcases eq_or_lt_of_le h1 with h2 | h2
              · rw [← h2] at hcl; rw [min_self] at hcl; exact absurd le_rfl hcl
              · exact h2
          have hrec := ih l l hasc' le_rfl hlce.le
          rw [ordTaxLoop_zero rest l l le_rfl] at hrec
          rw [min_eq_right hlce.le]
          rw [if_pos (lt_of_le_of_lt hpf hce), hcumfl, hrec]
          ring
      · -- fl ≥ l: this bracket is fully below the band
        push_neg at hfl
        rw [if_neg (by intro hc; exact absurd hc.2 (not_lt.mpr hfl))]
        have hrec := ih l fl hasc' hfl hfc
        have hcel : l ≤ ce := le_trans hfl hfc
        have hminfl : min fl l = l := min_eq_right hfl
        have hmince : min ce l = l := min_eq_right hcel
        rcases eq_or_lt_of_le hpf with hp | hp
        · -- fl = prev, hence prev = l = fl
          have hlf : l = fl := le_antisymm hfl (hp ▸ hpl)
          rw [if_pos (lt_of_le_of_lt hpf hce), hmince]
          rw [if_neg (by rw [hp]; exact lt_irrefl _)]
          rw [hrec, hlf, ordTaxLoop_zero rest fl fl le_rfl, hp]
          ring
        · rw [if_pos (lt_of_le_of_lt hpf hce), if_pos hp, hmince, hminfl, hrec]
          ring
/-- The inflation-scaled ordinary table is ascending from 0. -/
theorem asc_adj_ordinary (infl : ℚ) (hinfl : 0 ≤ infl) :
    Asc 0 (adjBrackets brackets_ordinary infl) := by
  simp only [adjBrackets, brackets_ordinary, List.map, Asc]
  refine ⟨by positivity, by norm_num, ?_, by norm_num, ?_, by norm_num, ?_, by norm_num,
    ?_, by norm_num, ?_, by norm_num, ?_, by norm_num, trivial⟩ <;> nlinarith

/-- The inflation-scaled capital-gains table is ascending from 0. -/
theorem asc_adj_ltcg (infl : ℚ) (hinfl : 0 ≤ infl) :
    Asc 0 (adjBrackets brackets_ltcg infl) := by
  simp only [adjBrackets, brackets_ltcg, List.map, Asc]
  refine ⟨by positivity, by norm_num, ?_, by norm_num, ?_, by norm_num, trivial⟩ <;> nlinarith

/-- All scaled ordinary rates are at most 37%. -/
theorem ratesle_adj_ordinary (infl : ℚ) :
    RatesLe (37/100) (adjBrackets brackets_ordinary infl) := by
  intro p hp
  simp only [adjBrackets, brackets_ordinary, List.map, List.mem_cons,
    List.not_mem_nil, or_false] at hp
  rcases hp with h | h | h | h | h | h | h <;> rw [h] <;> norm_num

/-- All scaled capital-gains rates are at most 20%. -/
theorem ratesle_adj_ltcg (infl : ℚ) :
    RatesLe (1/5) (adjBrackets brackets_ltcg infl) := by
  intro p hp
  simp only [adjBrackets, brackets_ltcg, List.map, List.mem_cons,
    List.not_mem_nil, or_false] at hp
  rcases hp with h | h | h <;> rw [h] <;> norm_num

/-- Closed form for the capital-gains cumulative walk below the scaled
top limit: 15% of the excess over the first limit plus a further 5% of
the excess over the second. -/
theorem ltcg_cum_closed (infl x : ℚ) (hinfl : 0 ≤ infl) (hx : 0 ≤ x)
    (hxtop : x ≤ 10000000 * infl) :
    ordTaxLoop (adjBrackets brackets_ltcg infl) x 0 =
      (3/20) * max 0 (x - 96700 * infl) + (1/20) * max 0 (x - 600050 * infl) := by
  simp only [adjBrackets, brackets_ltcg, List.map, ordTaxLoop]
  rcases eq_or_lt_of_le hx with h0 | h0
  · rw [if_neg (by rw [← h0]; exact lt_irrefl _)]
    rw [max_eq_left (by nlinarith), max_eq_left (by nlinarith)]
    ring
  · rw [if_pos h0]
    by_cases h1 : x > 96700 * infl
    · rw [if_pos h1, min_eq_right (by linarith)]
      by_cases h2 : x > 600050 * infl
      · rw [if_pos h2, min_eq_right (by nlinarith), min_eq_left hxtop]
        rw [max_eq_right (by linarith), max_eq_right (by linarith)]
        ring
      · rw [if_neg h2]
        push_neg at h2
        rw [min_eq_left h2]
        rw [max_eq_right (by linarith), max_eq_left (by linarith)]
        ring
    · rw [if_neg h1]
      push_neg at h1
      rw [min_eq_left h1]
      rw [max_eq_left (by linarith), max_eq_left (by nlinarith)]
      ring

/-- Shifting a hinge function `max 0 (x - k)` by `d ≥ 0` gains at least
as much at a larger base point (convexity of the hinge). -/
theorem hinge_shift_mono (k d x y : ℚ) (hxy : x ≤ y) (hd : 0 ≤ d) :
    max 0 (x + d - k) - max 0 (x - k) ≤ max 0 (y + d - k) - max 0 (y - k) := by
  rcases le_total (x + d) k with h1 | h1 <;> rcases le_total x k with h2 | h2 <;>
    rcases le_total (y + d) k with h3 | h3 <;> rcases le_total y k with h4 | h4 <;>
    simp [max_def] <;> split_ifs <;> linarith
/-- `calculate_tax` decomposes as ordinary-walk at the deducted income
plus the capital-gains walk difference over the stacked band. -/
theorem calculate_tax_rep (infl oo cc : ℚ) (hinfl : 0 ≤ infl)
    (ho : 0 ≤ oo) (hc : 0 ≤ cc) :
    calculate_tax oo cc infl =
      ordTaxLoop (adjBrackets brackets_ordinary infl)
        (max 0 (oo - std_deduction * infl)) 0 +
      (ordTaxLoop (adjBrackets brackets_ltcg infl)
        (max 0 (oo - std_deduction * infl) + cc) 0 -
       ordTaxLoop (adjBrackets brackets_ltcg infl)
        (max 0 (oo - std_deduction * infl)) 0) := by
  have hD : (0 : ℚ) ≤ std_deduction * infl :=
    mul_nonneg (by norm_num [std_deduction]) hinfl
  unfold calculate_tax
  by_cases h0 : oo + cc ≤ 0
  · rw [if_pos h0]
    have ho0 : oo = 0 := le_antisymm (by linarith) ho
    have hc0 : cc = 0 := le_antisymm (by linarith) hc
    subst ho0; subst hc0
    have ht : max 0 ((0 : ℚ) - std_deduction * infl) = 0 :=
      max_eq_left (by linarith)
    have e1 : ordTaxLoop (adjBrackets brackets_ordinary infl) 0 0 = 0 :=
      ordTaxLoop_zero _ 0 0 le_rfl
    have e2 : ordTaxLoop (adjBrackets brackets_ltcg infl) 0 0 = 0 :=
      ordTaxLoop_zero _ 0 0 le_rfl
    have e3 : ordTaxLoop (adjBrackets brackets_ltcg infl) (0 + 0) 0 = 0 :=
      ordTaxLoop_zero _ (0 + 0) 0 (by norm_num)
    rw [ht, e1, e2, e3]
    ring
  · rw [if_neg h0]
    dsimp only
    have hband := ltcgTaxLoop_eq_cum_sub (adjBrackets brackets_ltcg infl)
      (max 0 (oo - std_deduction * infl) + cc) 0
      (max 0 (oo - std_deduction * infl))
      (asc_adj_ltcg infl hinfl) (le_max_left _ _)
      (le_add_of_nonneg_right hc)
    rw [hband]
/-- C7 (amended): for a non-negative inflation factor and non-negative
incomes, `calculate_tax` is non-decreasing in capital gains; it is
1/5-Lipschitz in capital gains and 57/100-Lipschitz in ordinary income
(hence continuous in each argument); and it is non-decreasing in ordinary
income whenever the stacked income `max 0 (o_high - deduction) + gains`
stays within the scaled top bracket limit `10000000 * infl`. -/
theorem calculate_tax_mono_lipschitz (infl o o' c c' : ℚ)
    (hinfl : 0 ≤ infl) (ho : 0 ≤ o) (hoo : o ≤ o') (hc : 0 ≤ c) (hcc : c ≤ c') :
    calculate_tax o c infl ≤ calculate_tax o c' infl ∧
    |calculate_tax o c' infl - calculate_tax o c infl| ≤ (1/5) * (c' - c) ∧
    |calculate_tax o' c infl - calculate_tax o c infl| ≤ (57/100) * (o' - o) ∧
    (max 0 (o' - std_deduction * infl) + c ≤ 10000000 * infl →
      calculate_tax o c infl ≤ calculate_tax o' c infl) := by
  have hD : (0 : ℚ) ≤ std_deduction * infl :=
    mul_nonneg (by norm_num [std_deduction]) hinfl
  have ht0 : (0 : ℚ) ≤ max 0 (o - std_deduction * infl) := le_max_left _ _
  have ht0' : (0 : ℚ) ≤ max 0 (o' - std_deduction * infl) := le_max_left _ _
  have htt : max 0 (o - std_deduction * infl) ≤ max 0 (o' - std_deduction * infl) :=
    max_le_max le_rfl (by linarith)
  have htlip : max 0 (o' - std_deduction * infl) - max 0 (o - std_deduction * infl)
      ≤ o' - o := by
    rcases le_total (o - std_deduction * infl) 0 with h1 | h1
    · rw [max_eq_left h1]
      rcases le_total (o' - std_deduction * infl) 0 with h2 | h2
      · rw [max_eq_left h2]; linarith
      · rw [max_eq_right h2]; linarith
    · rw [max_eq_right h1,
        max_eq_right (by linarith : (0 : ℚ) ≤ o' - std_deduction * infl)]
      linarith
  have ascO := asc_adj_ordinary infl hinfl
  have ascL := asc_adj_ltcg infl hinfl
  have rlO := ratesle_adj_ordinary infl
  have rlL := ratesle_adj_ltcg infl
  have r1 := calculate_tax_rep infl o c hinfl ho hc
  have r2 := calculate_tax_rep infl o c' hinfl ho (hc.trans hcc)
  have r3 := calculate_tax_rep infl o' c hinfl (ho.trans hoo) hc
  have monoG := ordTaxLoop_mono (adjBrackets brackets_ltcg infl)
    (max 0 (o - std_deduction * infl) + c) (max 0 (o - std_deduction * infl) + c')
    (by linarith) 0 ascL
  have lipG := ordTaxLoop_lipschitz (adjBrackets brackets_ltcg infl)
    (max 0 (o - std_deduction * infl) + c) (max 0 (o - std_deduction * infl) + c')
    (1/5) (by norm_num) (by linarith) 0 ascL rlL
  have monoO := ordTaxLoop_mono (adjBrackets brackets_ordinary infl)
    (max 0 (o - std_deduction * infl)) (max 0 (o' - std_deduction * infl)) htt 0 ascO
  have lipO := ordTaxLoop_lipschitz (adjBrackets brackets_ordinary infl)
    (max 0 (o - std_deduction * infl)) (max 0 (o' - std_deduction * infl))
    (37/100) (by norm_num) htt 0 ascO rlO
  have monoB := ordTaxLoop_mono (adjBrackets brackets_ltcg infl)
    (max 0 (o - std_deduction * infl) + c) (max 0 (o' - std_deduction * infl) + c)
    (by linarith) 0 ascL
  have lipB := ordTaxLoop_lipschitz (adjBrackets brackets_ltcg infl)
    (max 0 (o - std_deduction * infl) + c) (max 0 (o' - std_deduction * infl) + c)
    (1/5) (by norm_num) (by linarith) 0 ascL rlL
  have monoF := ordTaxLoop_mono (adjBrackets brackets_ltcg infl)
    (max 0 (o - std_deduction * infl)) (max 0 (o' - std_deduction * infl)) htt 0 ascL
  have lipF := ordTaxLoop_lipschitz (adjBrackets brackets_ltcg infl)
    (max 0 (o - std_deduction * infl)) (max 0 (o' - std_deduction * infl))
    (1/5) (by norm_num) htt 0 ascL rlL
  refine ⟨by linarith, abs_le.mpr ⟨by linarith, by linarith⟩,
    abs_le.mpr ⟨by linarith, by linarith⟩, ?_⟩
  intro hstack
  have h1 : max 0 (o' - std_deduction * infl) ≤ 10000000 * infl := by linarith
  have h2 : max 0 (o - std_deduction * infl) + c ≤ 10000000 * infl := by linarith
  have h3 : max 0 (o - std_deduction * infl) ≤ 10000000 * infl := by linarith
  have L1 := ltcg_cum_closed infl (max 0 (o - std_deduction * infl)) hinfl ht0 h3
  have L2 := ltcg_cum_closed infl (max 0 (o' - std_deduction * infl)) hinfl ht0' h1
  have L3 := ltcg_cum_closed infl (max 0 (o - std_deduction * infl) + c) hinfl
    (by linarith) h2
  have L4 := ltcg_cum_closed infl (max 0 (o' - std_deduction * infl) + c) hinfl
    (by linarith) hstack
  have k1 := hinge_shift_mono (96700 * infl) c
    (max 0 (o - std_deduction * infl)) (max 0 (o' - std_deduction * infl)) htt hc
  have k2 := hinge_shift_mono (600050 * infl) c
    (max 0 (o - std_deduction * infl)) (max 0 (o' - std_deduction * infl)) htt hc
  linarith
theorem calculate_tax_mono_lipschitz_witness :
    calculate_tax 0 0 1 ≤ calculate_tax 0 50 1 ∧
    |calculate_tax 0 50 1 - calculate_tax 0 0 1| ≤ (1/5) * (50 - 0) ∧
    |calculate_tax 100 0 1 - calculate_tax 0 0 1| ≤ (57/100) * (100 - 0) ∧
    calculate_tax 0 0 1 ≤ calculate_tax 100 0 1 := by
  have h := calculate_tax_mono_lipschitz 1 0 100 0 50 (by norm_num) (by norm_num)
    (by norm_num) (by norm_num) (by norm_num)
  exact ⟨h.1, h.2.1, h.2.2.1, h.2.2.2 (by norm_num [std_deduction, max_def])⟩
